import Mathlib

/-!
Verification of the proficiency-gated code-editing authorization pipeline
(world-engine-ide).  The Python sources are shallowly embedded:

* `learning_model.py`  — progress & unlock tracker (`LearningModel`),
* `editor_engine.py`   — unified-diff generation / strict application,
* `main.py`            — write-token authority, workspace path validation,
  diff statistics and the two `/edit` request flows.

Conventions for the embedding:

* Python `float` values are modelled as `ℚ` (exact rational arithmetic);
  every arithmetic step mirrors the source expression shape.
* Python `dict`s used as configuration are modelled as association lists
  (`List (String × _)`); `dict.get(k, d)` becomes `(l.lookup k).getD d`.
* Methods that mutate `self` are modelled as state-passing functions
  returning the updated state; methods that only read `self` are pure.
* The external static code evaluator (`code_evaluator.py`, an excluded
  collaborator per the design) is a function-valued field of the model.
* Strings are ASCII-faithful: `str.lower` / `str.isalnum` are modelled by
  `Char.toLower` / `Char.isAlphanum`, which agree on ASCII.
-/

namespace WorldEngine

/-- Python `l[-w:]` for an integer `w`: for `w > 0` the last `w` elements,
for `w = 0` the whole list (since `-0 == 0`), for `w < 0` the list with the
first `-w` elements dropped. -/
def pyLastSlice {α : Type} (w : Int) (l : List α) : List α :=
  if 0 < w then l.drop (l.length - w.toNat) else l.drop (-w).toNat

/-- Python whitespace characters stripped by `str.strip()` (ASCII subset). -/
def pyIsSpace (c : Char) : Bool :=
  c = ' ' ∨ c = '\t' ∨ c = '\n' ∨ c = '\r' ∨ c = '\x0b' ∨ c = '\x0c'

/-- Python `str.strip()` (ASCII whitespace). -/
def pyStrip (s : String) : String :=
  String.mk ((s.toList.dropWhile pyIsSpace).reverse.dropWhile pyIsSpace).reverse

/-- Python `str.startswith(pre)`, as a kernel-computable list check. -/
def pyStartsWith (s pre : String) : Bool :=
  pre.toList.isPrefixOf s.toList

/-- `dict.get(k, d)` on a rational-valued configuration mapping. -/
def lookupQ (m : List (String × ℚ)) (k : String) (d : ℚ) : ℚ :=
  (m.lookup k).getD d

/-- The unlock mapping produced by `LearningModel._compute_unlocks` and by the
`LearningModel.__init__` initializer.  Both construct a dict with exactly the
four fixed tier keys, so the embedding is a structure with those four fields.
`lookup` is Python `dict.get(key, False)`: any other key yields `False`. -/
structure Unlocks where
  assist_mode : Bool
  minor_edits : Bool
  refactor_lint : Bool
  autonomous_editing : Bool
deriving Repr, DecidableEq

def Unlocks.lookup (u : Unlocks) (k : String) : Bool :=
  if k = "assist_mode" then u.assist_mode
  else if k = "minor_edits" then u.minor_edits
  else if k = "refactor_lint" then u.refactor_lint
  else if k = "autonomous_editing" then u.autonomous_editing
  else false

/-- `LearningModel._compute_unlocks(percent)` (learning_model.py:170-176). -/
def computeUnlocks (thresholds : List (String × ℚ)) (percent : ℚ) : Unlocks :=
  { assist_mode := decide (lookupQ thresholds "assist_mode" (50/100) ≤ percent)
    minor_edits := decide (lookupQ thresholds "minor_edits" (70/100) ≤ percent)
    refactor_lint := decide (lookupQ thresholds "refactor_lint" (90/100) ≤ percent)
    autonomous_editing := decide (lookupQ thresholds "autonomous_editing" (100/100) ≤ percent) }

/-- One entry of the `keyword_map` configuration dict:
`{"keywords": [...], "weight": w}` with the defaults the source applies
(`spec.get("keywords") or []`, `spec.get("weight", 1.0)`). -/
structure KwSpec where
  keywords : List String
  weight : ℚ
deriving Repr, DecidableEq

/-- The `standards` configuration dict; fields are `Option` so that
`standards.get(key, default)` is modelled by `getD`. -/
structure Standards where
  weights : List (String × ℚ)
  min_tokens_for_full_clarity : Option Int
  combo_weights : List (String × ℚ)
  moving_window_size : Option Int

/-- Result of the external static code evaluator
(`CodeEvaluator.evaluate`); only the fields the pipeline reads
(`ok`, `score`, `breakdown`) are kept. -/
structure CodeEvalRes where
  ok : Bool
  score : ℚ
  breakdown : List (String × ℚ)

/-- State and configuration of `LearningModel` (learning_model.py:44-71).
`capability_actions` and `intent_default_action` are the two sub-dicts of
`capability_gating`; `codeEvaluator` is the pluggable external evaluator. -/
structure LearningModel where
  standards : Standards
  thresholds : List (String × ℚ)
  keyword_map : List (String × KwSpec)
  capability_actions : List (String × String)
  intent_default_action : List (String × String)
  codeEvaluator : String → Option String → CodeEvalRes
  window_size : Int
  recent_scores : List ℚ
  current_percent : ℚ
  unlocked : Unlocks

/-- `LearningModel.__init__`: empty window, zero percent, all tiers locked,
`window_size = int(standards.get("moving_window_size", 50))`. -/
def LearningModel.init (standards : Standards) (thresholds : List (String × ℚ))
    (keyword_map : List (String × KwSpec)) (actions defaults : List (String × String))
    (codeEvaluator : String → Option String → CodeEvalRes) : LearningModel :=
  { standards := standards
    thresholds := thresholds
    keyword_map := keyword_map
    capability_actions := actions
    intent_default_action := defaults
    codeEvaluator := codeEvaluator
    window_size := standards.moving_window_size.getD 50
    recent_scores := []
    current_percent := 0
    unlocked := ⟨false, false, false, false⟩ }

/-- `LearningModel.update_config` (learning_model.py:73-87): replaces the
configuration and recomputes `window_size`; progress state is untouched. -/
def LearningModel.update_config (m : LearningModel) (standards : Standards)
    (thresholds : List (String × ℚ)) (keyword_map : List (String × KwSpec))
    (actions defaults : List (String × String))
    (codeEvaluator : String → Option String → CodeEvalRes) : LearningModel :=
  { m with
    standards := standards
    thresholds := thresholds
    keyword_map := keyword_map
    capability_actions := actions
    intent_default_action := defaults
    codeEvaluator := codeEvaluator
    window_size := standards.moving_window_size.getD 50 }

/-- `LearningModel._tokenize` (learning_model.py:89-101): lowercase the text
and split into maximal runs of alphanumeric / `_` / `-` characters. -/
def pyTokenize (text : String) : List String :=
  let step : (List String × List Char) → Char → (List String × List Char) :=
    fun acc ch =>
      let c := ch.toLower
      if c.isAlphanum ∨ c = '_' ∨ c = '-' then (acc.1, acc.2 ++ [c])
      else if acc.2.isEmpty then acc
      else (acc.1 ++ [String.mk acc.2], [])
  let r := text.toList.foldl step ([], [])
  if r.2.isEmpty then r.1 else r.1 ++ [String.mk r.2]

/-- `LearningModel._predict_intent` (learning_model.py:103-122): best-scoring
intent over the keyword map (dict iteration order = list order; strict
improvement, so the first best wins), confidence clamped to 1. -/
def predict_intent (keyword_map : List (String × KwSpec)) (tokens : List String) :
    String × ℚ :=
  let best := keyword_map.foldl
    (fun (best : String × ℚ) p =>
      let kws := p.2.keywords
      if kws.isEmpty then best
      else
        let hits : Nat := (tokens.filter (fun t => kws.contains t)).length
        let raw : ℚ := (hits : ℚ) / ((max 1 kws.eraseDups.length : Nat) : ℚ)
        let score := raw * p.2.weight
        if best.2 < score then (p.1, score) else best)
    ("unknown", 0)
  (best.1, min 1 best.2)

/-- Intent-score breakdown produced by `LearningModel._score_intent`; the
source returns these five entries as a dict. -/
structure IntentBreakdown where
  correctness : ℚ
  clarity : ℚ
  safety : ℚ
  confidence : ℚ
  intent_total : ℚ

/-- `LearningModel._score_intent` (learning_model.py:124-168). -/
def score_intent (standards : Standards) (keyword_map : List (String × KwSpec))
    (predicted : String) (expected : Option String) (confidence : ℚ)
    (tokens : List String) : IntentBreakdown :=
  let w_correct := lookupQ standards.weights "correctness" (55/100)
  let w_clarity := lookupQ standards.weights "clarity" (20/100)
  let w_safety := lookupQ standards.weights "safety" (15/100)
  let w_conf := lookupQ standards.weights "confidence" (10/100)
  let correctness : ℚ :=
    match expected with
    | none => 1/2
    | some e => if predicted = e then 1 else 0
  let min_tokens : Int := standards.min_tokens_for_full_clarity.getD 4
  let token_factor : ℚ := min 1 ((tokens.length : ℚ) / ((max 1 min_tokens : Int) : ℚ))
  let spec := (keyword_map.lookup predicted).getD ⟨[], 1⟩
  let kws := spec.keywords
  let any_hit : ℚ := if ¬kws.isEmpty ∧ tokens.any (fun t => kws.contains t) then 1 else 0
  let clarity : ℚ := (1/2) * token_factor + (1/2) * any_hit
  let safety : ℚ := 1
  let conf_score : ℚ := max 0 (min 1 confidence)
  let total : ℚ := w_correct * correctness + w_clarity * clarity +
    w_safety * safety + w_conf * conf_score
  ⟨correctness, clarity, safety, conf_score, max 0 (min 1 total)⟩

/-- `LearningModel._resolve_required_unlock` (learning_model.py:218-232):
returns `(action, required_unlock)`; an action missing from the actions map
falls back hard to `"assist"`. -/
def LearningModel.resolve_required_unlock (m : LearningModel)
    (predicted : String) (requested_action : Option String) : String × String :=
  let requested := pyStrip ((requested_action).getD "")
  let action0 : String :=
    if requested ≠ "" then requested
    else ((m.intent_default_action.lookup predicted).getD
      ((m.intent_default_action.lookup "unknown").getD "assist"))
  let action := if (m.capability_actions.lookup action0).isSome then action0 else "assist"
  (action, (m.capability_actions.lookup action).getD "assist_mode")

/-- `LearningModel.is_allowed` (learning_model.py:234-236): the `unlocked`
map is authoritative; missing keys read as `False`. -/
def LearningModel.is_allowed (m : LearningModel) (required_unlock : String) : Bool :=
  m.unlocked.lookup required_unlock

/-- `ScoreReport` (learning_model.py:14-27), an immutable dataclass. -/
structure ScoreReport where
  text : String
  predicted_intent : String
  expected_intent : Option String
  requested_action : String
  required_unlock : String
  allowed : Bool
  total_score : ℚ
  breakdown : List (String × ℚ)
  unlocks : Unlocks
  unlocks_before : Unlocks
  code_eval : Option CodeEvalRes

/-- Arguments of `LearningModel.evaluate`. -/
structure EvalArgs where
  text : String
  expected_intent : Option String
  code : Option String
  tests : Option String
  requested_action : Option String

/-- `LearningModel.evaluate` (learning_model.py:238-324).  The method reads
`self` but performs no assignment to it, so the embedding returns the report
together with the (unchanged) model state. -/
def LearningModel.evaluate (m : LearningModel) (a : EvalArgs) :
    ScoreReport × LearningModel :=
  let tokens := pyTokenize a.text
  let pc := predict_intent m.keyword_map tokens
  let ar := m.resolve_required_unlock pc.1 a.requested_action
  let before_scores := pyLastSlice m.window_size m.recent_scores
  let percent_before : ℚ :=
    if before_scores.isEmpty then 0
    else before_scores.sum / ((max 1 before_scores.length : Nat) : ℚ)
  let unlocks_before := computeUnlocks m.thresholds percent_before
  let allowed := unlocks_before.lookup ar.2
  let ib := score_intent m.standards m.keyword_map pc.1 a.expected_intent pc.2 tokens
  let code_eval : Option CodeEvalRes :=
    match a.code with
    | some c => if pyStrip c ≠ "" then some (m.codeEvaluator c a.tests) else none
    | none => none
  let code_score : Option ℚ := code_eval.map (·.score)
  let w_intent := lookupQ m.standards.combo_weights "intent" (50/100)
  let w_code : ℚ :=
    match code_score with
    | none => 0
    | some _ => lookupQ m.standards.combo_weights "code" (50/100)
  let total_score : ℚ :=
    match code_score with
    | none => ib.intent_total
    | some cs =>
      if w_code ≤ 0 then ib.intent_total
      else if w_intent + w_code ≤ 0 then ib.intent_total
      else max 0 (min 1 ((w_intent * ib.intent_total + w_code * cs) / (w_intent + w_code)))
  let breakdown : List (String × ℚ) :=
    [("intent_total", ib.intent_total), ("total", total_score),
     ("correctness", ib.correctness), ("clarity", ib.clarity),
     ("safety", ib.safety), ("confidence", ib.confidence)] ++
    (match code_eval with
     | some ce => [("code_score", ce.score)]
     | none => [])
  let tmp_scores := pyLastSlice m.window_size (m.recent_scores ++ [total_score])
  let percent : ℚ := tmp_scores.sum / ((max 1 tmp_scores.length : Nat) : ℚ)
  let unlocks := computeUnlocks m.thresholds percent
  (⟨a.text, pc.1, a.expected_intent, ar.1, ar.2, allowed, total_score, breakdown,
    unlocks, unlocks_before, code_eval⟩, m)

/-- `LearningModel.update_progress` (learning_model.py:326-332): append the
report score, evict via `recent_scores[-window_size:]` once the length
exceeds `window_size`, then recompute the percent and the unlock map in full. -/
def LearningModel.update_progress (m : LearningModel) (report : ScoreReport) :
    LearningModel :=
  let rs0 := m.recent_scores ++ [report.total_score]
  let rs := if (rs0.length : Int) > m.window_size then pyLastSlice m.window_size rs0 else rs0
  let cp : ℚ := rs.sum / ((max 1 rs.length : Nat) : ℚ)
  { m with
    recent_scores := rs
    current_percent := cp
    unlocked := computeUnlocks m.thresholds cp }

/-! ### Diff engine (editor_engine.py) -/

/-- Characters Python `str.splitlines` treats as line boundaries
(`\x0d` = CR is handled separately so that CRLF counts as one break). -/
def pyIsLineBreak (c : Char) : Bool :=
  c = '\n' ∨ c = '\x0b' ∨ c = '\x0c' ∨ c = '\x1c' ∨ c = '\x1d' ∨ c = '\x1e' ∨
    c = '\x85' ∨ c = '\u2028' ∨ c = '\u2029'

/-- Worker for `pySplitlines`; `acc` holds the current line reversed. -/
def pySplitlinesAux (keepends : Bool) : List Char → List Char → List String
  | [], acc => if acc.isEmpty then [] else [String.mk acc.reverse]
  | '\r' :: '\n' :: rest, acc =>
    String.mk (acc.reverse ++ (if keepends then ['\r', '\n'] else [])) ::
      pySplitlinesAux keepends rest []
  | '\r' :: rest, acc =>
    String.mk (acc.reverse ++ (if keepends then ['\r'] else [])) ::
      pySplitlinesAux keepends rest []
  | c :: rest, acc =>
    if pyIsLineBreak c then
      String.mk (acc.reverse ++ (if keepends then [c] else [])) ::
        pySplitlinesAux keepends rest []
    else pySplitlinesAux keepends rest (c :: acc)

/-- Python `str.splitlines(keepends)`. -/
def pySplitlines (keepends : Bool) (s : String) : List String :=
  pySplitlinesAux keepends s.toList []

/-- `PatchResult` (editor_engine.py:14-19). -/
structure PatchResult where
  ok : Bool
  diff : String
  new_text : Option String
  error : Option String
deriving Repr, DecidableEq

/-- Stand-in for Python `repr` of a string in the engine error messages
(single quotes, no escape processing; only the fixed message prefixes are
relied upon by any theorem). -/
def pyReprStr (s : String) : String := "'" ++ s ++ "'"

def pyReprChar (c : Char) : String := pyReprStr (String.mk [c])

/-- `old_lines[old_pos] if old_pos < len(old_lines) else None`, repr-ed. -/
def pyReprGot (oldLines : List String) (oldPos : Nat) : String :=
  if oldPos < oldLines.length then pyReprStr (oldLines.getD oldPos "") else "None"

/-- Digits prefix of a character list and the remainder. -/
def takeDigits (cs : List Char) : List Char × List Char :=
  (cs.takeWhile Char.isDigit, cs.dropWhile Char.isDigit)

def digitsToNat (ds : List Char) : Nat :=
  ds.foldl (fun n c => n * 10 + (c.toNat - '0'.toNat)) 0

/-- The hunk-header regular expression
`^@@ -(\d+)(?:,(\d+))? \+(\d+)(?:,(\d+))? @@` of
`EditorEngine.apply_unified_diff` (prefix match; omitted counts default
to 1).  Returns `(old_start, old_count, new_start, new_count)`. -/
def parseHunkHeader (line : String) : Option (Nat × Nat × Nat × Nat) :=
  match line.toList with
  | '@' :: '@' :: ' ' :: '-' :: rest =>
    let d1 := takeDigits rest
    if d1.1.isEmpty then none
    else
      let withC1 :=
        match d1.2 with
        | ',' :: r =>
          let d2 := takeDigits r
          if d2.1.isEmpty then none else some (digitsToNat d2.1, d2.2)
        | _ => none
      let oldStart := digitsToNat d1.1
      let k1 : Nat × List Char := (withC1.map (fun p => (p.1, p.2))).getD (1, d1.2)
      match k1.2 with
      | ' ' :: '+' :: r2 =>
        let d3 := takeDigits r2
        if d3.1.isEmpty then none
        else
          let withC2 :=
            match d3.2 with
            | ',' :: r3 =>
              let d4 := takeDigits r3
              if d4.1.isEmpty then none else some (digitsToNat d4.1, d4.2)
            | _ => none
          let newStart := digitsToNat d3.1
          let k2 : Nat × List Char := withC2.getD (1, d3.2)
          match k2.2 with
          | ' ' :: '@' :: '@' :: _ => some (oldStart, k1.1, newStart, k2.1)
          | _ => none
      | _ => none
  | _ => none

def hunkCountOldMsg (oldCount consumedOld : Nat) : String :=
  "Hunk old line count mismatch: header " ++ toString oldCount ++
    ", consumed " ++ toString consumedOld ++ "."

def hunkCountNewMsg (newCount producedNew : Nat) : String :=
  "Hunk new line count mismatch: header " ++ toString newCount ++
    ", produced " ++ toString producedNew ++ "."

/-- Hunk-header step shared by the two places the source parses a header
(the top of the outer `while` loop, editor_engine.py:60-75): parse, check
ordering (`old_start - 1 < old_pos` is the out-of-order error, covering
Python's `old_start = 0` giving target -1), copy the verbatim lines between
the cursor and the declared start (clamped slice).  Returns the new cursor,
the extended output, and the declared counts. -/
def processHunkHead (oldLines : List String) (oldPos : Nat) (out : List String)
    (l : String) : Except String (Nat × List String × Nat × Nat) :=
  match parseHunkHeader l with
  | none => .error ("Invalid diff hunk header at line: " ++ pyReprStr l)
  | some (oldStart, oldCount, _newStart, newCount) =>
    if oldStart ≤ oldPos then .error "Overlapping or out-of-order hunks."
    else
      .ok (oldStart - 1,
        out ++ (oldLines.drop oldPos).take (oldStart - 1 - oldPos), oldCount, newCount)

/-- The fused hunk loop of `EditorEngine.apply_unified_diff`
(editor_engine.py:59-119), one diff line per step (the source's inner body
`while` exits on a `"@@ "` line and the outer loop immediately re-reads that
line as the next header; here that hand-off happens in the same step, so the
recursion is structural on `lines`).  `body = none` means a hunk header is
expected; `body = some (consumed, produced, oldCount, newCount)` means a
hunk body is being walked.  Context lines must match and are copied,
removals must match and are consumed, additions are copied, backslash
no-newline markers are skipped, an empty body line is malformed, and at each
hunk end the consumed/produced counters must equal the declared counts. -/
def applyLoop (oldLines : List String) :
    List String → Option (Nat × Nat × Nat × Nat) → Nat → List String →
    Except String (List String)
  | [], none, oldPos, out => .ok (out ++ oldLines.drop oldPos)
  | [], some (c, p, oc, nc), oldPos, out =>
    if oc ≠ c then .error (hunkCountOldMsg oc c)
    else if nc ≠ p then .error (hunkCountNewMsg nc p)
    else .ok (out ++ oldLines.drop oldPos)
  | l :: rest, none, oldPos, out =>
    match processHunkHead oldLines oldPos out l with
    | .error e => .error e
    | .ok (pos2, out2, oc, nc) => applyLoop oldLines rest (some (0, 0, oc, nc)) pos2 out2
  | l :: rest, some (c, p, oc, nc), oldPos, out =>
    if pyStartsWith l "@@ " then
      if oc ≠ c then .error (hunkCountOldMsg oc c)
      else if nc ≠ p then .error (hunkCountNewMsg nc p)
      else
        match processHunkHead oldLines oldPos out l with
        | .error e => .error e
        | .ok (pos2, out2, oc2, nc2) =>
          applyLoop oldLines rest (some (0, 0, oc2, nc2)) pos2 out2
    else if pyStartsWith l "\\ No newline at end of file" then
      applyLoop oldLines rest (some (c, p, oc, nc)) oldPos out
    else
      match l.toList with
      | [] => .error "Malformed diff line (empty)."
      | px :: contentChars =>
        let content := String.mk contentChars ++ "\n"
        if px = ' ' then
          if oldPos ≥ oldLines.length ∨ oldLines.getD oldPos "" ≠ content then
            .error ("Context mismatch. Expected " ++ pyReprStr content ++ ", got " ++
              pyReprGot oldLines oldPos ++ ".")
          else
            applyLoop oldLines rest (some (c + 1, p + 1, oc, nc)) (oldPos + 1)
              (out ++ [content])
        else if px = '-' then
          if oldPos ≥ oldLines.length ∨ oldLines.getD oldPos "" ≠ content then
            .error ("Removal mismatch. Expected " ++ pyReprStr content ++ ", got " ++
              pyReprGot oldLines oldPos ++ ".")
          else
            applyLoop oldLines rest (some (c + 1, p, oc, nc)) (oldPos + 1) out
        else if px = '+' then
          applyLoop oldLines rest (some (c, p + 1, oc, nc)) oldPos (out ++ [content])
        else
          .error ("Unknown diff prefix " ++ pyReprChar px ++ " in line " ++
            pyReprStr l ++ ".")

/-- The optional `---` / `+++` header skip (editor_engine.py:50-53). -/
def stripHeaderLines (lines0 : List String) : List String :=
  let lines1 :=
    match lines0 with
    | l :: rest => if pyStartsWith l "--- " then rest else lines0
    | [] => lines0
  match lines1 with
  | l :: rest => if pyStartsWith l "+++ " then rest else lines1
  | [] => lines1

/-- `EditorEngine.apply_unified_diff` (editor_engine.py:42-122). -/
def EditorEngine.apply_unified_diff (old_text diff_text : String) : PatchResult :=
  if pyStrip diff_text = "" then ⟨true, diff_text, some old_text, none⟩
  else
    let old_lines := pySplitlines true old_text
    let lines2 := stripHeaderLines (pySplitlines false diff_text)
    match applyLoop old_lines lines2 none 0 [] with
    | .ok outLines => ⟨true, diff_text, some (String.join outLines), none⟩
    | .error e => ⟨false, diff_text, none, some e⟩

/-! ### difflib embedding (generation side of editor_engine.py) -/

/-- `l[i]` on the line lists of the matcher (always used in range). -/
def getLine (l : List String) (i : Nat) : String := l.getD i ""

/-- `SequenceMatcher.b2j` lookup for one element: the ascending list of
indices of `s` in `b`, with the autojunk rule (for `len(b) >= 200`, elements
occurring more than `len(b)//100 + 1` times are dropped from `b2j`). -/
def b2j (b : List String) (s : String) : List Nat :=
  let idxs := (List.range b.length).filter (fun j => getLine b j = s)
  if b.length ≥ 200 ∧ idxs.length > b.length / 100 + 1 then [] else idxs

/-- Steps of the first (junk-free) leftward extension loop of
`find_longest_match`; the fuel argument is exactly `pa - alo`, so
`fuel > 0 ↔ alo < pa` and the recursion mirrors the `while` loop. -/
def extLeftSteps (a b : List String) (blo : Nat) : Nat → Nat → Nat → Nat
  | _, _, 0 => 0
  | pa, pb, fuel + 1 =>
    if blo < pb ∧ getLine a (pa - 1) = getLine b (pb - 1) then
      extLeftSteps a b blo (pa - 1) (pb - 1) fuel + 1
    else 0

/-- Steps of the rightward extension loop; fuel is `ahi - pa`. -/
def extRightSteps (a b : List String) (bhi : Nat) : Nat → Nat → Nat → Nat
  | _, _, 0 => 0
  | pa, pb, fuel + 1 =>
    if pb < bhi ∧ getLine a pa = getLine b pb then
      extRightSteps a b bhi (pa + 1) (pb + 1) fuel + 1
    else 0

/-- `SequenceMatcher.find_longest_match(alo, ahi, blo, bhi)` with
`isjunk = None` (so the junk-extension loops are no-ops and the junk-free
extension loops run unrestricted).  The inner dynamic-programming rows
(`j2len`) are association lists; `j = 0` looks up Python's `-1`, which is
never present, hence 0. -/
def findLongestMatch (a b : List String) (alo ahi blo bhi : Nat) : Nat × Nat × Nat :=
  let core := (List.range' alo (ahi - alo)).foldl
    (fun (st : List (Nat × Nat) × (Nat × Nat × Nat)) i =>
      let js := (b2j b (getLine a i)).filter (fun j => blo ≤ j ∧ j < bhi)
      let inner := js.foldl
        (fun (st2 : List (Nat × Nat) × (Nat × Nat × Nat)) j =>
          let k := (if j = 0 then 0 else (st.1.lookup (j - 1)).getD 0) + 1
          let best := if k > st2.2.2.2 then (i + 1 - k, j + 1 - k, k) else st2.2
          ((j, k) :: st2.1, best))
        ([], st.2)
      inner)
    ([], (alo, blo, 0))
  let besti := core.2.1
  let bestj := core.2.2.1
  let bestsize := core.2.2.2
  let tL := extLeftSteps a b blo besti bestj (besti - alo)
  let besti := besti - tL
  let bestj := bestj - tL
  let bestsize := bestsize + tL
  let tR := extRightSteps a b bhi (besti + bestsize) (bestj + bestsize)
    (ahi - (besti + bestsize))
  (besti, bestj, bestsize + tR)

/-- One matching block or queue entry ordering for the final `sort()`:
lexicographic on `(i, j, size)`. -/
def tripleLE (x y : Nat × Nat × Nat) : Bool :=
  x.1 < y.1 ∨ (x.1 = y.1 ∧ (x.2.1 < y.2.1 ∨ (x.2.1 = y.2.1 ∧ x.2.2 ≤ y.2.2)))

/-- Insertion into a `tripleLE`-sorted list. -/
def insertTriple (x : Nat × Nat × Nat) : List (Nat × Nat × Nat) → List (Nat × Nat × Nat)
  | [] => [x]
  | y :: ys => if tripleLE x y then x :: y :: ys else y :: insertTriple x ys

/-- `list.sort()` on the collected blocks (insertion sort; the order is
total, so this agrees with any sort). -/
def sortTriples (l : List (Nat × Nat × Nat)) : List (Nat × Nat × Nat) :=
  l.foldr insertTriple []

/-- The LIFO queue loop of `SequenceMatcher.get_matching_blocks`.  The fuel
is an upper bound on the number of iterations: every iteration removes an
interval pair and pushes sub-pairs of strictly smaller total mass
`(ahi-alo)+(bhi-blo)+1`, so `len(a)+len(b)+1` iterations always suffice;
the collected blocks are sorted afterwards, so accumulation order is
irrelevant. -/
def matchingBlocksLoop (a b : List String) :
    Nat → List (Nat × Nat × Nat × Nat) → List (Nat × Nat × Nat) → List (Nat × Nat × Nat)
  | 0, _, acc => acc
  | _, [], acc => acc
  | fuel + 1, (alo, ahi, blo, bhi) :: rest, acc =>
    let r := findLongestMatch a b alo ahi blo bhi
    let i := r.1
    let j := r.2.1
    let k := r.2.2
    if k ≠ 0 then
      let q1 := if alo < i ∧ blo < j then [(alo, i, blo, j)] else []
      let q2 := if i + k < ahi ∧ j + k < bhi then [(i + k, ahi, j + k, bhi)] else []
      matchingBlocksLoop a b fuel (q2 ++ q1 ++ rest) (r :: acc)
    else matchingBlocksLoop a b fuel rest acc

/-- `SequenceMatcher.get_matching_blocks`: run the queue loop, sort, merge
adjacent blocks, and append the `(la, lb, 0)` sentinel. -/
def getMatchingBlocks (a b : List String) : List (Nat × Nat × Nat) :=
  let raw := matchingBlocksLoop a b (a.length + b.length + 1)
    [(0, a.length, 0, b.length)] []
  let sorted := sortTriples raw
  let ms := sorted.foldl
    (fun (st : List (Nat × Nat × Nat) × (Nat × Nat × Nat)) t =>
      let i1 := st.2.1
      let j1 := st.2.2.1
      let k1 := st.2.2.2
      if i1 + k1 = t.1 ∧ j1 + k1 = t.2.1 then (st.1, (i1, j1, k1 + t.2.2))
      else ((if k1 ≠ 0 then st.1 ++ [st.2] else st.1), t))
    ([], (0, 0, 0))
  (if ms.2.2.2 ≠ 0 then ms.1 ++ [ms.2] else ms.1) ++ [(a.length, b.length, 0)]

/-- One opcode of `SequenceMatcher.get_opcodes` (tag and the two ranges). -/
structure Opcode where
  tag : String
  a1 : Nat
  a2 : Nat
  b1 : Nat
  b2 : Nat
deriving Repr, DecidableEq

/-- `SequenceMatcher.get_opcodes`. -/
def getOpcodes (a b : List String) : List Opcode :=
  ((getMatchingBlocks a b).foldl
    (fun (st : List Opcode × Nat × Nat) blk =>
      let ai := blk.1
      let bj := blk.2.1
      let size := blk.2.2
      let i := st.2.1
      let j := st.2.2
      let tag : String :=
        if i < ai ∧ j < bj then "replace"
        else if i < ai then "delete"
        else if j < bj then "insert"
        else ""
      let acc := if tag ≠ "" then st.1 ++ [⟨tag, i, ai, j, bj⟩] else st.1
      let acc := if size ≠ 0 then acc ++ [⟨"equal", ai, ai + size, bj, bj + size⟩] else acc
      (acc, ai + size, bj + size))
    ([], 0, 0)).1

/-- `SequenceMatcher.get_grouped_opcodes(n=3)` as called by
`difflib.unified_diff` (context size 3; `Nat` subtraction models Python's
`max(x, y - n)` with possibly negative `y - n`, since `max` with `x ≥ 0`
gives the same result). -/
def getGroupedOpcodes (a b : List String) : List (List Opcode) :=
  let codes0 := getOpcodes a b
  let codes1 : List Opcode := if codes0.isEmpty then [⟨"equal", 0, 1, 0, 1⟩] else codes0
  let codes2 : List Opcode :=
    match codes1 with
    | c :: rest =>
      if c.tag = "equal" then
        Opcode.mk c.tag (max c.a1 (c.a2 - 3)) c.a2 (max c.b1 (c.b2 - 3)) c.b2 :: rest
      else codes1
    | [] => codes1
  let codes3 : List Opcode :=
    match codes2.getLast? with
    | some c =>
      if c.tag = "equal" then
        codes2.dropLast ++ [⟨c.tag, c.a1, min c.a2 (c.a1 + 3), c.b1, min c.b2 (c.b1 + 3)⟩]
      else codes2
    | none => codes2
  let r := codes3.foldl
    (fun (st : List (List Opcode) × List Opcode) c =>
      if c.tag = "equal" ∧ c.a2 - c.a1 > 6 then
        (st.1 ++ [st.2 ++ [⟨c.tag, c.a1, min c.a2 (c.a1 + 3), c.b1, min c.b2 (c.b1 + 3)⟩]],
         [⟨c.tag, max c.a1 (c.a2 - 3), c.a2, max c.b1 (c.b2 - 3), c.b2⟩])
      else (st.1, st.2 ++ [c]))
    ([], [])
  if ¬r.2.isEmpty ∧ ¬(r.2.length = 1 ∧ (r.2.headD ⟨"", 0, 0, 0, 0⟩).tag = "equal") then
    r.1 ++ [r.2]
  else r.1

/-- `difflib._format_range_unified`. -/
def formatRangeUnified (start stop : Nat) : String :=
  let beginning := start + 1
  let length := stop - start
  if length = 1 then toString beginning
  else toString (if length = 0 then beginning - 1 else beginning) ++ "," ++ toString length

/-- `a[i1:i2]` for in-range bounds. -/
def sliceLines (l : List String) (i1 i2 : Nat) : List String :=
  (l.drop i1).take (i2 - i1)

/-- `difflib.unified_diff(a, b, fromfile, tofile, lineterm="")` as the list
of yielded lines: header lines carry no terminator, body lines are the
original lines (which keep their own newlines) with a one-character tag. -/
def unifiedDiffLines (a b : List String) (fromfile tofile : String) : List String :=
  ((getGroupedOpcodes a b).foldl
    (fun (st : List String × Bool) group =>
      let headers := if st.2 then [] else ["--- " ++ fromfile, "+++ " ++ tofile]
      let first := group.headD ⟨"", 0, 0, 0, 0⟩
      let last := group.getLastD ⟨"", 0, 0, 0, 0⟩
      let hunkHeader := "@@ -" ++ formatRangeUnified first.a1 last.a2 ++
        " +" ++ formatRangeUnified first.b1 last.b2 ++ " @@"
      let body := group.foldl
        (fun (acc : List String) c =>
          if c.tag = "equal" then
            acc ++ (sliceLines a c.a1 c.a2).map (fun line => " " ++ line)
          else
            let dels :=
              if c.tag = "replace" ∨ c.tag = "delete" then
                (sliceLines a c.a1 c.a2).map (fun line => "-" ++ line)
              else []
            let ins :=
              if c.tag = "replace" ∨ c.tag = "insert" then
                (sliceLines b c.b1 c.b2).map (fun line => "+" ++ line)
              else []
            acc ++ dels ++ ins)
        []
      (st.1 ++ headers ++ [hunkHeader] ++ body, true))
    ([], false)).1

/-- `EditorEngine.generate_unified_diff` (editor_engine.py:26-40): split
keeping line ends, run `difflib.unified_diff` with `lineterm=""`, and join
the yielded lines with a newline plus a trailing newline (empty string when
there is no difference). -/
def EditorEngine.generate_unified_diff (old_text new_text : String) : String :=
  let old_lines := pySplitlines true old_text
  let new_lines := pySplitlines true new_text
  let diff_lines := unifiedDiffLines old_lines new_lines "a/code.py" "b/code.py"
  if diff_lines.isEmpty then "" else String.intercalate "\n" diff_lines ++ "\n"

/-! ### Declarative characterization of a clean strict application (C4) -/

/-- The specific error classes of `apply_unified_diff`, one per failed
check: malformed header, hunk ordering, malformed body line, context
mismatch, removal mismatch, unknown prefix, and the two hunk-count
mismatches. -/
def errSpecific (e : String) : Bool :=
  pyStartsWith e "Invalid diff hunk header at line: " ∨
  e = "Overlapping or out-of-order hunks." ∨
  e = "Malformed diff line (empty)." ∨
  pyStartsWith e "Context mismatch. Expected " ∨
  pyStartsWith e "Removal mismatch. Expected " ∨
  pyStartsWith e "Unknown diff prefix " ∨
  pyStartsWith e "Hunk old line count mismatch: header " ∨
  pyStartsWith e "Hunk new line count mismatch: header "

/-- Clean strict application, written as a relation over the diff-line walk:
`ApplyRel oldLines lines body pos produced` holds when walking `lines` from
old-text cursor `pos` (with `body = some (consumed, produced, oldCount,
newCount)` inside a hunk body) cleanly emits exactly the lines `produced`.
The constructors carry the claim's conditions: hunks are strictly ordered
(`pos < old_start`), every context line and every removal line equals the
old-text line at the cursor, and a hunk can only be closed when the consumed
and produced counters equal the header's declared counts (the closing
states are `some (c, p, c, p)`). -/
inductive ApplyRel (oldLines : List String) :
    List String → Option (Nat × Nat × Nat × Nat) → Nat → List String → Prop
  | finishTop (pos : Nat) : ApplyRel oldLines [] none pos (oldLines.drop pos)
  | finishBody (pos c p : Nat) :
      ApplyRel oldLines [] (some (c, p, c, p)) pos (oldLines.drop pos)
  | header (l : String) (rest : List String) (pos os oc ns nc : Nat)
      (produced : List String) :
      parseHunkHeader l = some (os, oc, ns, nc) →
      pos < os →
      ApplyRel oldLines rest (some (0, 0, oc, nc)) (os - 1) produced →
      ApplyRel oldLines (l :: rest) none pos
        ((oldLines.drop pos).take (os - 1 - pos) ++ produced)
  | nextHunk (l : String) (rest : List String) (pos c p os oc2 ns nc2 : Nat)
      (produced : List String) :
      pyStartsWith l "@@ " = true →
      parseHunkHeader l = some (os, oc2, ns, nc2) →
      pos < os →
      ApplyRel oldLines rest (some (0, 0, oc2, nc2)) (os - 1) produced →
      ApplyRel oldLines (l :: rest) (some (c, p, c, p)) pos
        ((oldLines.drop pos).take (os - 1 - pos) ++ produced)
  | skipMarker (l : String) (rest : List String) (pos : Nat)
      (st : Nat × Nat × Nat × Nat) (produced : List String) :
      pyStartsWith l "@@ " = false →
      pyStartsWith l "\\ No newline at end of file" = true →
      ApplyRel oldLines rest (some st) pos produced →
      ApplyRel oldLines (l :: rest) (some st) pos produced
  | ctxLine (l : String) (rest : List String) (cs : List Char)
      (pos c p oc nc : Nat) (produced : List String) :
      pyStartsWith l "@@ " = false →
      pyStartsWith l "\\ No newline at end of file" = false →
      l.toList = ' ' :: cs →
      pos < oldLines.length →
      oldLines.getD pos "" = String.mk cs ++ "\n" →
      ApplyRel oldLines rest (some (c + 1, p + 1, oc, nc)) (pos + 1) produced →
      ApplyRel oldLines (l :: rest) (some (c, p, oc, nc)) pos
        ((String.mk cs ++ "\n") :: produced)
  | delLine (l : String) (rest : List String) (cs : List Char)
      (pos c p oc nc : Nat) (produced : List String) :
      pyStartsWith l "@@ " = false →
      pyStartsWith l "\\ No newline at end of file" = false →
      l.toList = '-' :: cs →
      pos < oldLines.length →
      oldLines.getD pos "" = String.mk cs ++ "\n" →
      ApplyRel oldLines rest (some (c + 1, p, oc, nc)) (pos + 1) produced →
      ApplyRel oldLines (l :: rest) (some (c, p, oc, nc)) pos produced
  | addLine (l : String) (rest : List String) (cs : List Char)
      (pos c p oc nc : Nat) (produced : List String) :
      pyStartsWith l "@@ " = false →
      pyStartsWith l "\\ No newline at end of file" = false →
      l.toList = '+' :: cs →
      ApplyRel oldLines rest (some (c, p + 1, oc, nc)) pos produced →
      ApplyRel oldLines (l :: rest) (some (c, p, oc, nc)) pos
        ((String.mk cs ++ "\n") :: produced)

/-- The claim's notion of a clean, never-partial strict application: either
the diff is empty/whitespace and the old text is returned unchanged, or the
header-stripped diff lines walk cleanly (`ApplyRel`) over the old lines and
the new text is exactly the emitted lines, joined. -/
def StrictPatchApplies (old_text diff_text new_text : String) : Prop :=
  (pyStrip diff_text = "" ∧ new_text = old_text) ∨
  (pyStrip diff_text ≠ "" ∧
   ∃ produced,
     ApplyRel (pySplitlines true old_text)
       (stripHeaderLines (pySplitlines false diff_text)) none 0 produced ∧
     new_text = String.join produced)

/-! ### Write-token authority (main.py) -/

/-- The token payload built by `App.issue_write_token` (main.py:107-117). -/
structure TokenPayload where
  v : Nat
  op : String
  ru : String
  iat : Nat
  exp : Nat
  nonce : String
  fn : String
  base_hash : String
  diff_hash : String
deriving Repr, DecidableEq

/-- `App.issue_write_token` (main.py:104-123), modelled at the payload level.
The canonical-JSON / base64url / HMAC envelope is not modelled: for a token
produced by this function and checked by the same process (same in-memory
secret), the structural checks of `verify_write_token` (split on the dot,
base64 decode, constant-time HMAC comparison, JSON parse) always succeed,
because the encoding is deterministic and injective and the signature is
recomputed from the same secret; the claims under verification quantify only
over minted tokens.  `h` abstracts `sha256_text`; `nonce` and `now` are
parameters standing for `secrets.token_urlsafe(12)` and `int(time.time())`;
`ttl` is `patch_cfg["write_token_ttl_seconds"]`, read by the source inside
this function. -/
def App.issue_write_token (h : String → String)
    (op required_unlock filename base_code diff_text nonce : String)
    (now ttl : Nat) : TokenPayload × Nat :=
  ({ v := 1, op := op, ru := required_unlock, iat := now, exp := now + ttl,
     nonce := nonce, fn := filename, base_hash := h base_code,
     diff_hash := h diff_text }, ttl)

/-- The payload-binding portion of `App.verify_write_token`
(main.py:153-169), checks in source order; `none` means verified.  (The
`bad_exp` isinstance check cannot fire on a payload whose `exp` field is an
integer by construction, as is the case for every minted token.) -/
def App.verify_write_token (h : String → String) (p : TokenPayload)
    (op required_unlock filename base_code diff_text : String) (now : Nat) :
    Option String :=
  if p.v ≠ 1 then some "bad_version"
  else if p.op ≠ op then some "bad_op"
  else if p.ru ≠ required_unlock then some "wrong_unlock"
  else if p.fn ≠ filename then some "wrong_filename"
  else if p.base_hash ≠ h base_code then some "wrong_base"
  else if p.diff_hash ≠ h diff_text then some "wrong_diff"
  else if now > p.exp then some "expired"
  else none

/-! ### Workspace path validation (main.py:93-102) -/

/-- POSIX `Path.is_absolute`. -/
def pyIsAbsolute (filename : String) : Bool := pyStartsWith filename "/"

/-- `str.split("/")` over the character list (keeps empty segments). -/
def splitOnSlashAux : List Char → List Char → List String
  | [], acc => [String.mk acc.reverse]
  | '/' :: rest, acc => String.mk acc.reverse :: splitOnSlashAux rest []
  | c :: rest, acc => splitOnSlashAux rest (c :: acc)

/-- `Path(filename)` as a component list: `pathlib` collapses repeated
separators and single dots, keeping `..`. -/
def splitPathComponents (filename : String) : List String :=
  (splitOnSlashAux filename.toList []).filter (fun c => c ≠ "" ∧ c ≠ ".")

/-- The lexical part of `Path.resolve()`: eliminate `..` by popping (at the
filesystem root `..` is dropped, matching `/.. == /`).  Symbolic links are
not modelled; the workspace is treated as symlink-free. -/
def normalizePath (parts : List String) : List String :=
  parts.foldl (fun acc c => if c = ".." then acc.dropLast else acc ++ [c]) []

/-- `App.resolve_workspace_path` (main.py:93-102): reject absolute paths,
resolve `workspace_root / filename`, and require the result to stay under
the (already resolved) workspace root, as `Path.relative_to` does. -/
def App.resolve_workspace_path (workspace_root : List String) (filename : String) :
    Except String (List String) :=
  if pyIsAbsolute filename then .error "absolute paths are not allowed"
  else
    let target := normalizePath (workspace_root ++ splitPathComponents filename)
    if workspace_root.isPrefixOf target then .ok target
    else .error "path escapes workspace"

/-! ### The two POST /edit flows (main.py:327-587) -/

/-- `patch_editing` configuration, with the `dict.get` defaulting and
`int()` coercions of the source resolved at load time. -/
structure PatchCfg where
  max_new_code_chars : Int
  require_code_eval_pass : Bool
  require_write_token : Bool
  write_token_ttl_seconds : Nat
  workspace_root : List String
  write_to_file : Bool
  max_changes_by_required_unlock : List (String × Int)

/-- `Handler._diff_stats` (main.py:191-204). -/
structure DiffStats where
  additions : Nat
  deletions : Nat
  total_changes : Nat
deriving Repr, DecidableEq

def Handler.diff_stats (diff_text : String) : DiffStats :=
  let st := (pySplitlines false diff_text).foldl
    (fun (st : Nat × Nat) line =>
      if line = "" then st
      else if pyStartsWith line "+++" ∨ pyStartsWith line "---" ∨ pyStartsWith line "@@" then st
      else if pyStartsWith line "+" then (st.1 + 1, st.2)
      else if pyStartsWith line "-" then (st.1, st.2 + 1)
      else st)
    (0, 0)
  ⟨st.1, st.2, st.1 + st.2⟩

/-- `Handler._max_changes_for_unlock` (main.py:206-217); the `or {}` /
`isinstance` / `int()` guards are resolved by the typed configuration. -/
def Handler.max_changes_for_unlock (cfg : PatchCfg) (required_unlock : String) :
    Option Int :=
  cfg.max_changes_by_required_unlock.lookup required_unlock

/-- `max_changes is not None and stats["total_changes"] > max_changes`. -/
def exceedsMax (mx : Option Int) (total : Nat) : Bool :=
  match mx with
  | some m => (total : Int) > m
  | none => false

/-- `meta` dict of a `log_patch` call. -/
structure PatchMeta where
  op : String
  error : Option String
  blocked : Bool
  blocked_reason : Option String
deriving Repr, DecidableEq

/-- One row appended by `DataProcessor.log_patch` (audit store). -/
structure PatchLogEntry where
  requested_action : String
  required_unlock : String
  allowed : Bool
  old_hash : String
  new_hash : String
  diff_text : String
  meta : PatchMeta
deriving Repr, DecidableEq

/-- Outcome of an `/edit` request (the JSON response, by case). -/
inductive EditResponse
  | capabilityLocked (requested_action required_unlock : String)
  | patchTooLarge (total_changes : Nat) (max_changes : Int)
  | writeTokenRequired (reason : String)
  | patchApplyFailed (details : Option String)
  | fileWriteFailed (message : String)
  | applyOk (new_code : String) (wrote_file : Bool)
  | fileReadFailed (message : String)
  | newCodeTooLarge
  | missingOldNew
  | codeEvalBlocked
  | generateOk (diff : String) (write_token : Option (TokenPayload × Nat))
deriving Repr, DecidableEq

/-- Observable side effects of one `/edit` request: the minted token (if
any), whether a workspace file was written, and the audit rows appended. -/
structure EditEffects where
  minted : Option TokenPayload
  wrote_file : Bool
  audit : List PatchLogEntry
deriving Repr, DecidableEq

/-- The application pieces the `/edit` flows read: the learning model, the
patch configuration, and the digest function (`sha256_text`). -/
structure AppState where
  model : LearningModel
  patch_cfg : PatchCfg
  hash : String → String

/-- `report.code_eval` passes the `require_code_eval_pass` gate
(`ce and ce.get("ok", False)`, main.py:511-512). -/
def codeEvalOk (r : ScoreReport) : Bool :=
  match r.code_eval with
  | some ce => ce.ok
  | none => false

/-- The patch-application branch of `Handler.do_POST` for `/edit`
(main.py:340-456), as a pure function from the request to the response and
its effects.  The incoming write token is modelled as the decoded payload
(`none` for an absent or structurally invalid token, which the source
rejects with `missing_or_malformed`/`bad_base64`/`bad_signature` before any
field comparison); the filesystem write is modelled as succeeding whenever
the path validates.  No token is ever minted in this flow and the model is
never mutated (`update_progress` is not called on `/edit`). -/
def Handler.handleEditApply (app : AppState) (text : String)
    (expected_intent requested_action : Option String)
    (filename base_code diff_text : String) (write_token : Option TokenPayload)
    (now : Nat) : EditResponse × EditEffects :=
  let op := "edit_apply_unified_diff"
  let report := (app.model.evaluate ⟨text, expected_intent, none, none, requested_action⟩).1
  if report.allowed = false then
    (.capabilityLocked report.requested_action report.required_unlock, ⟨none, false, []⟩)
  else
    let stats := Handler.diff_stats diff_text
    let mx := Handler.max_changes_for_unlock app.patch_cfg report.required_unlock
    if exceedsMax mx stats.total_changes then
      (.patchTooLarge stats.total_changes (mx.getD 0), ⟨none, false, []⟩)
    else
      let tokenFail : Option String :=
        if app.patch_cfg.require_write_token then
          match write_token with
          | none => some "missing_or_malformed"
          | some p =>
            App.verify_write_token app.hash p op report.required_unlock filename
              base_code diff_text now
        else none
      match tokenFail with
      | some why => (.writeTokenRequired why, ⟨none, false, []⟩)
      | none =>
        let pr := EditorEngine.apply_unified_diff base_code diff_text
        if ¬pr.ok ∨ pr.new_text.isNone then
          (.patchApplyFailed pr.error,
           ⟨none, false,
            [⟨report.requested_action, report.required_unlock, true,
              app.hash base_code, app.hash base_code, diff_text,
              ⟨"apply", pr.error, false, none⟩⟩]⟩)
        else
          let nt := pr.new_text.getD ""
          let entry : PatchLogEntry :=
            ⟨report.requested_action, report.required_unlock, true,
             app.hash base_code, app.hash nt, diff_text, ⟨"apply", none, false, none⟩⟩
          if app.patch_cfg.write_to_file then
            match App.resolve_workspace_path app.patch_cfg.workspace_root filename with
            | .error e => (.fileWriteFailed e, ⟨none, false, [entry]⟩)
            | .ok _ => (.applyOk nt true, ⟨none, true, [entry]⟩)
          else (.applyOk nt false, ⟨none, false, [entry]⟩)

/-- The `old_code` determination of the patch-generation branch
(main.py:458-468): an empty request `old_code` with a filename is read from
the workspace (`fs` maps a resolved path to the file content, `none` when
the file does not exist, in which case `old_code` stays empty). -/
def Handler.readOldCode (app : AppState) (old_code_req filename : String)
    (fs : List String → Option String) : Except String String :=
  if old_code_req = "" ∧ filename ≠ "" then
    match App.resolve_workspace_path app.patch_cfg.workspace_root filename with
    | .error e => .error e
    | .ok p =>
      match fs p with
      | some content => .ok content
      | none => .ok old_code_req
  else .ok old_code_req

/-- The patch-generation branch of `Handler.do_POST` for `/edit`
(main.py:458-587): validation, capability gate (audited on denial), static
code-evaluation gate (audited), diff generation, per-tier patch-size
ceiling, token minting, audit row, response.  No file is ever written in
this flow. -/
def Handler.handleEditGenerate (app : AppState) (text : String)
    (expected_intent requested_action tests : Option String)
    (filename old_code_req new_code : String) (fs : List String → Option String)
    (nonce : String) (now : Nat) : EditResponse × EditEffects :=
  match Handler.readOldCode app old_code_req filename fs with
  | .error e => (.fileReadFailed e, ⟨none, false, []⟩)
  | .ok old_code =>
    if (new_code.length : Int) > app.patch_cfg.max_new_code_chars then
      (.newCodeTooLarge, ⟨none, false, []⟩)
    else if old_code = "" ∧ new_code = "" then (.missingOldNew, ⟨none, false, []⟩)
    else
      let report :=
        (app.model.evaluate ⟨text, expected_intent, some old_code, tests, requested_action⟩).1
      if report.allowed = false then
        (.capabilityLocked report.requested_action report.required_unlock,
         ⟨none, false,
          [⟨report.requested_action, report.required_unlock, false,
            app.hash old_code, app.hash old_code, "", ⟨"generate", none, true, none⟩⟩]⟩)
      else if app.patch_cfg.require_code_eval_pass ∧ ¬codeEvalOk report then
        (.codeEvalBlocked,
         ⟨none, false,
          [⟨report.requested_action, report.required_unlock, true,
            app.hash old_code, app.hash old_code, "",
            ⟨"generate", none, false, some "code_eval_not_ok"⟩⟩]⟩)
      else
        let diff_text := EditorEngine.generate_unified_diff old_code new_code
        let stats := Handler.diff_stats diff_text
        let mx := Handler.max_changes_for_unlock app.patch_cfg report.required_unlock
        if exceedsMax mx stats.total_changes then
          (.patchTooLarge stats.total_changes (mx.getD 0), ⟨none, false, []⟩)
        else
          let tok : Option (TokenPayload × Nat) :=
            if app.patch_cfg.require_write_token then
              some (App.issue_write_token app.hash "edit_apply_unified_diff"
                report.required_unlock filename old_code diff_text nonce now
                app.patch_cfg.write_token_ttl_seconds)
            else none
          (.generateOk diff_text tok,
           ⟨tok.map (·.1), false,
            [⟨report.requested_action, report.required_unlock, true,
              app.hash old_code, app.hash new_code, diff_text,
              ⟨"generate", none, false, none⟩⟩]⟩)

/-! ### Concrete instances used by witnesses and counterexamples -/

/-- Concrete model for the C2 witness: assist tier at threshold 1/2, one
intent keyed on "hello", empty history. -/
def c2Model : LearningModel :=
  LearningModel.init ⟨[], none, [], none⟩ [("assist_mode", 1/2)]
    [("greet", ⟨["hello"], 1⟩)] [("assist", "assist_mode")] [("unknown", "assist")]
    (fun _ _ => ⟨true, 1, []⟩)

/-- A submission that scores 1.0 under `c2Model` while the assist tier is
still locked. -/
def c2Args : EvalArgs := ⟨"hello hello hello hello", some "greet", none, none, none⟩

/-- Concrete model for the C7 witness: window size 2, empty history. -/
def c7Model : LearningModel :=
  LearningModel.init ⟨[], none, [], some 2⟩ [("assist_mode", 1/2)] [] [] []
    (fun _ _ => ⟨true, 1, []⟩)

/-- Concrete model for the C7 counterexample: `moving_window_size = 0`, so
`recent_scores[-0:]` is the whole list and the cap is never applied. -/
def c7ZModel : LearningModel :=
  LearningModel.init ⟨[], none, [], some 0⟩ [] [] [] [] (fun _ _ => ⟨true, 1, []⟩)

/-- A report carrying a given total score (only `total_score` is read by
`update_progress`). -/
def c7Rep (q : ℚ) : ScoreReport :=
  ⟨"", "unknown", none, "assist", "assist_mode", false, q, [],
   ⟨false, false, false, false⟩, ⟨false, false, false, false⟩, none⟩

/-- Concrete model for the C10 witness: the configured actions map sends
"deploy" to a tier name outside the four fixed tiers. -/
def c10Model : LearningModel :=
  LearningModel.init ⟨[], none, [], none⟩ [] [] [("deploy", "total_control")] []
    (fun _ _ => ⟨true, 1, []⟩)

def c10Args : EvalArgs := ⟨"x", none, none, none, some "deploy"⟩

/-- The old text of the repository's own round-trip test
(tests/test_editor_engine.py) and of the spec's concrete diff scenario. -/
def c3Old : String := "def f():\n    return 1\n"

def c3New : String := "def f(x):\n    return x\n"

/-- What `generate_unified_diff c3Old c3New` actually produces: the difflib
lines keep their own newlines and are joined with a further newline, so
every content line is followed by a blank line. -/
def c3Diff : String :=
  "--- a/code.py\n+++ b/code.py\n@@ -1,2 +1,2 @@\n-def f():\n\n-    return 1\n\n+def f(x):\n\n+    return x\n\n"

/-- Model for the C6 scenario: empty history (everything locked, default
thresholds), one action mapping "refactor" to the refactor_lint tier. -/
def c6Model : LearningModel :=
  LearningModel.init ⟨[], none, [], none⟩ [] [] [("refactor", "refactor_lint")] []
    (fun _ _ => ⟨true, 1, []⟩)

def c6Cfg : PatchCfg :=
  ⟨200000, true, true, 120, ["home", "ws"], true, [("minor_edits", 10)]⟩

def c6App : AppState := ⟨c6Model, c6Cfg, id⟩

/-- Model for the C5 witness: minor_edits unlocked (threshold 1/2 with a
perfect score in the window), action "edit" mapping to minor_edits. -/
def c5Model : LearningModel :=
  { standards := ⟨[], none, [], none⟩
    thresholds := [("minor_edits", 1/2)]
    keyword_map := []
    capability_actions := [("edit", "minor_edits")]
    intent_default_action := []
    codeEvaluator := fun _ _ => ⟨true, 1, []⟩
    window_size := 50
    recent_scores := [1]
    current_percent := 1
    unlocked := computeUnlocks [("minor_edits", 1/2)] 1 }

/-- Ceiling of one change for the minor_edits tier. -/
def c5Cfg : PatchCfg :=
  ⟨200000, true, false, 120, ["home", "ws"], true, [("minor_edits", 1)]⟩

def c5App : AppState := ⟨c5Model, c5Cfg, id⟩

/-- A two-change diff (1 deletion + 1 addition). -/
def c5Diff : String := "@@ -1 +1 @@\n-x\n+y\n"

/-! ### Helper lemmas -/

theorem Unlocks.lookup_false_of_notin (x : Unlocks) (u : String)
    (h1 : u ≠ "assist_mode") (h2 : u ≠ "minor_edits") (h3 : u ≠ "refactor_lint")
    (h4 : u ≠ "autonomous_editing") : x.lookup u = false := by
  simp [Unlocks.lookup, h1, h2, h3, h4]

theorem computeUnlocks_zero_lookup (th : List (String × ℚ)) (u : String)
    (h1 : 0 < lookupQ th "assist_mode" (50/100))
    (h2 : 0 < lookupQ th "minor_edits" (70/100))
    (h3 : 0 < lookupQ th "refactor_lint" (90/100))
    (h4 : 0 < lookupQ th "autonomous_editing" (100/100)) :
    (computeUnlocks th 0).lookup u = false := by
  unfold computeUnlocks Unlocks.lookup
  split_ifs <;>
    simp only [decide_eq_false_iff_not, not_le] <;>
    first
      | exact h1
      | exact h2
      | exact h3
      | exact h4

theorem resolve_ok_prefix (root : List String) (fn : String) (p : List String)
    (h : App.resolve_workspace_path root fn = .ok p) : root <+: p := by
  unfold App.resolve_workspace_path at h
  split_ifs at h with h1
  dsimp only at h
  split_ifs at h with h2
  · cases h
    exact List.isPrefixOf_iff_prefix.mp h2

theorem evaluate_allowed_eq (m : LearningModel) (a : EvalArgs) :
    (m.evaluate a).1.allowed =
      ((m.evaluate a).1.unlocks_before).lookup ((m.evaluate a).1.required_unlock) := rfl

theorem evaluate_unlocks_before_of_empty (m : LearningModel) (a : EvalArgs)
    (h : m.recent_scores = []) :
    (m.evaluate a).1.unlocks_before = computeUnlocks m.thresholds 0 := by
  simp [LearningModel.evaluate, h, pyLastSlice]

theorem update_progress_suffix (m : LearningModel) (rep : ScoreReport) :
    (m.update_progress rep).recent_scores <:+ (m.recent_scores ++ [rep.total_score]) := by
  unfold LearningModel.update_progress pyLastSlice
  dsimp only
  split_ifs <;> first | exact List.drop_suffix _ _ | exact List.suffix_refl _

theorem update_progress_length (m : LearningModel) (rep : ScoreReport)
    (hW : 1 ≤ m.window_size) :
    (m.update_progress rep).recent_scores.length =
      min (m.recent_scores.length + 1) m.window_size.toNat := by
  unfold LearningModel.update_progress pyLastSlice
  dsimp only
  split_ifs with h1 h2
  · simp only [List.length_drop, List.length_append, List.length_cons,
      List.length_nil] at h1 ⊢
    omega
  · omega
  · simp only [List.length_append, List.length_cons, List.length_nil] at h1 ⊢
    omega

theorem update_progress_length_pos (m : LearningModel) (rep : ScoreReport)
    (hW : 1 ≤ m.window_size) :
    1 ≤ (m.update_progress rep).recent_scores.length := by
  rw [update_progress_length m rep hW]
  omega

theorem update_progress_percent (m : LearningModel) (rep : ScoreReport)
    (hW : 1 ≤ m.window_size) :
    (m.update_progress rep).current_percent =
      (m.update_progress rep).recent_scores.sum /
        ((m.update_progress rep).recent_scores.length : ℚ) := by
  have hlen := update_progress_length_pos m rep hW
  show (m.update_progress rep).recent_scores.sum /
      ((max 1 (m.update_progress rep).recent_scores.length : Nat) : ℚ) = _
  rw [Nat.max_eq_right hlen]

theorem update_progress_unlocked (m : LearningModel) (rep : ScoreReport) :
    (m.update_progress rep).unlocked =
      computeUnlocks m.thresholds (m.update_progress rep).current_percent := rfl

theorem update_progress_window_size (m : LearningModel) (rep : ScoreReport) :
    (m.update_progress rep).window_size = m.window_size := rfl

theorem update_progress_thresholds (m : LearningModel) (rep : ScoreReport) :
    (m.update_progress rep).thresholds = m.thresholds := rfl

theorem foldl_update_progress_last (m : LearningModel) (l : List ScoreReport)
    (h : l ≠ []) :
    ∃ (m0 : LearningModel) (rep : ScoreReport),
      l.foldl LearningModel.update_progress m = m0.update_progress rep ∧
      m0.window_size = m.window_size ∧ m0.thresholds = m.thresholds := by
  induction l generalizing m with
  | nil => exact absurd rfl h
  | cons x xs ih =>
    cases xs with
    | nil => exact ⟨m, x, rfl, rfl, rfl⟩
    | cons y ys =>
      obtain ⟨m0, rep, he, hw, ht⟩ := ih (m.update_progress x) (by simp)
      refine ⟨m0, rep, ?_, hw.trans rfl, ht.trans rfl⟩
      simpa only [List.foldl_cons] using he

/-! ### Claims -/

/-- C2: for every submission, the report satisfies
`allowed = unlocks_before[required_unlock]`; a submission whose required tier
is locked before the fold is denied even when its own score would unlock the
tier (`unlocks` true after the fold); and with empty history and positive
thresholds every submission is denied. -/
theorem c2_allowed_is_gate_before (m : LearningModel) (a : EvalArgs) :
    ((m.evaluate a).1.allowed =
      ((m.evaluate a).1.unlocks_before).lookup ((m.evaluate a).1.required_unlock)) ∧
    (((m.evaluate a).1.unlocks_before).lookup ((m.evaluate a).1.required_unlock) = false →
      ((m.evaluate a).1.unlocks).lookup ((m.evaluate a).1.required_unlock) = true →
      (m.evaluate a).1.allowed = false) ∧
    (m.recent_scores = [] →
      0 < lookupQ m.thresholds "assist_mode" (50/100) →
      0 < lookupQ m.thresholds "minor_edits" (70/100) →
      0 < lookupQ m.thresholds "refactor_lint" (90/100) →
      0 < lookupQ m.thresholds "autonomous_editing" (100/100) →
      (m.evaluate a).1.allowed = false) := by
  refine ⟨rfl, ?_, ?_⟩
  · intro h _
    rw [evaluate_allowed_eq, h]
  · intro he h1 h2 h3 h4
    rw [evaluate_allowed_eq, evaluate_unlocks_before_of_empty m a he]
    exact computeUnlocks_zero_lookup _ _ h1 h2 h3 h4

/-- Witness for C2: under `c2Model` (empty history, assist threshold 1/2) the
submission `c2Args` scores high enough that the post-fold unlock map opens
`assist_mode`, yet `allowed` is `false`. -/
theorem c2_allowed_is_gate_before_witness :
    ((c2Model.evaluate c2Args).1.unlocks_before).lookup
      ((c2Model.evaluate c2Args).1.required_unlock) = false ∧
    ((c2Model.evaluate c2Args).1.unlocks).lookup
      ((c2Model.evaluate c2Args).1.required_unlock) = true ∧
    (c2Model.evaluate c2Args).1.allowed = false := by
  refine ⟨by with_unfolding_all decide, by with_unfolding_all decide, ?_⟩
  exact (c2_allowed_is_gate_before c2Model c2Args).2.1 (by with_unfolding_all decide)
    (by with_unfolding_all decide)

/-- C7 counterexample: with `moving_window_size = 0` (so `window_size = 0`),
one `update_progress` call leaves 1 > 0 retained scores: Python
`recent_scores[-0:]` is the whole list, so the cap "at most window_size
scores remain" fails at this input. -/
theorem c7_counterexample :
    c7ZModel.window_size = 0 ∧
    ((c7ZModel.update_progress (c7Rep 1)).recent_scores.length : Int) >
      c7ZModel.window_size := by
  exact ⟨rfl, by with_unfolding_all decide⟩

/-- C7 (amended: requires `window_size ≥ 1`): `update_progress` appends the
report score and evicts oldest-first (the retained window is a suffix of the
appended list, of length `min (n+1) W`), `current_percent` is the exact mean
of the retained scores, the unlock map is recomputed from that mean, and all
of this holds after any nonempty sequence of `update_progress` calls. -/
theorem c7_update_progress_window (m : LearningModel) (rep : ScoreReport)
    (hW : 1 ≤ m.window_size) :
    ((m.update_progress rep).recent_scores <:+ (m.recent_scores ++ [rep.total_score])) ∧
    ((m.update_progress rep).recent_scores.length =
      min (m.recent_scores.length + 1) m.window_size.toNat) ∧
    ((m.update_progress rep).current_percent =
      (m.update_progress rep).recent_scores.sum /
        ((m.update_progress rep).recent_scores.length : ℚ)) ∧
    ((m.update_progress rep).unlocked =
      computeUnlocks m.thresholds (m.update_progress rep).current_percent) ∧
    (∀ l : List ScoreReport, l ≠ [] →
      (l.foldl LearningModel.update_progress m).recent_scores.length ≤ m.window_size.toNat ∧
      (l.foldl LearningModel.update_progress m).current_percent =
        (l.foldl LearningModel.update_progress m).recent_scores.sum /
          ((l.foldl LearningModel.update_progress m).recent_scores.length : ℚ) ∧
      (l.foldl LearningModel.update_progress m).unlocked =
        computeUnlocks m.thresholds
          (l.foldl LearningModel.update_progress m).current_percent) := by
  refine ⟨update_progress_suffix m rep, update_progress_length m rep hW,
    update_progress_percent m rep hW, update_progress_unlocked m rep, ?_⟩
  intro l hl
  obtain ⟨m0, rep0, he, hw, ht⟩ := foldl_update_progress_last m l hl
  have hW0 : 1 ≤ m0.window_size := hw ▸ hW
  rw [he]
  refine ⟨?_, update_progress_percent m0 rep0 hW0, ?_⟩
  · rw [update_progress_length m0 rep0 hW0, hw]
    omega
  · rw [update_progress_unlocked m0 rep0, ht]

/-- Witness for C7 (amended): window size 2 with one score folded in. -/
theorem c7_update_progress_window_witness :
    (1 : Int) ≤ c7Model.window_size ∧
    (c7Model.update_progress (c7Rep 1)).recent_scores.length =
      min (c7Model.recent_scores.length + 1) c7Model.window_size.toNat := by
  exact ⟨by decide, (c7_update_progress_window c7Model (c7Rep 1) (by decide)).2.1⟩


/-- C9: `evaluate` returns its report while leaving the model state (in
particular `recent_scores`, `current_percent`, `unlocked`) unchanged, and
`update_config` (the only other state-touching method) also leaves the
progress state unchanged; only `update_progress` mutates it. -/
theorem c9_evaluate_frame (m : LearningModel) (a : EvalArgs)
    (standards : Standards) (thresholds : List (String × ℚ))
    (keyword_map : List (String × KwSpec)) (actions defaults : List (String × String))
    (ce : String → Option String → CodeEvalRes) :
    ((m.evaluate a).2 = m) ∧
    ((m.evaluate a).2.recent_scores = m.recent_scores) ∧
    ((m.evaluate a).2.current_percent = m.current_percent) ∧
    ((m.evaluate a).2.unlocked = m.unlocked) ∧
    ((m.update_config standards thresholds keyword_map actions defaults ce).recent_scores =
      m.recent_scores) ∧
    ((m.update_config standards thresholds keyword_map actions defaults ce).current_percent =
      m.current_percent) ∧
    ((m.update_config standards thresholds keyword_map actions defaults ce).unlocked =
      m.unlocked) :=
  ⟨rfl, rfl, rfl, rfl, rfl, rfl, rfl⟩

/-- C10: the unlock maps contain exactly the four fixed tiers, so for any
tier name outside them every lookup is `false`, `is_allowed` is `false` in
every model state, and every report resolving to such a tier is denied. -/
theorem c10_unknown_tier_fails_closed (u : String)
    (h1 : u ≠ "assist_mode") (h2 : u ≠ "minor_edits") (h3 : u ≠ "refactor_lint")
    (h4 : u ≠ "autonomous_editing") :
    (∀ x : Unlocks, x.lookup u = false) ∧
    (∀ m : LearningModel, m.is_allowed u = false) ∧
    (∀ (m : LearningModel) (a : EvalArgs),
      (m.evaluate a).1.required_unlock = u → (m.evaluate a).1.allowed = false) := by
  have hx : ∀ x : Unlocks, x.lookup u = false :=
    fun x => Unlocks.lookup_false_of_notin x u h1 h2 h3 h4
  refine ⟨hx, fun m => hx _, fun m a hru => ?_⟩
  rw [evaluate_allowed_eq, hru]
  exact hx _

/-- Witness for C10: `c10Model` maps the action "deploy" to the unconfigured
tier "total_control"; the resulting report is denied. -/
theorem c10_unknown_tier_fails_closed_witness :
    (c10Model.evaluate c10Args).1.required_unlock = "total_control" ∧
    (c10Model.evaluate c10Args).1.allowed = false := by
  refine ⟨by with_unfolding_all decide, ?_⟩
  exact (c10_unknown_tier_fails_closed "total_control" (by decide) (by decide)
    (by decide) (by decide)).2.2 c10Model c10Args (by with_unfolding_all decide)

/-- C1: a minted token verifies iff the five bound fields match (texts via
their digests) and `now ≤ iat + ttl`; strictly later verification fails as
"expired"; each single differing bound field fails with its specific
non-expiry reason, checked in source order. -/
theorem c1_token_binding (h : String → String)
    (op ru fn base diff nonce : String) (now0 ttl now : Nat)
    (op2 ru2 fn2 base2 diff2 : String) :
    (App.verify_write_token h
        (App.issue_write_token h op ru fn base diff nonce now0 ttl).1
        op2 ru2 fn2 base2 diff2 now = none ↔
      (op2 = op ∧ ru2 = ru ∧ fn2 = fn ∧ h base2 = h base ∧ h diff2 = h diff ∧
        now ≤ now0 + ttl)) ∧
    (op2 = op → ru2 = ru → fn2 = fn → h base2 = h base → h diff2 = h diff →
      now0 + ttl < now →
      App.verify_write_token h
        (App.issue_write_token h op ru fn base diff nonce now0 ttl).1
        op2 ru2 fn2 base2 diff2 now = some "expired") ∧
    (op2 ≠ op →
      App.verify_write_token h
        (App.issue_write_token h op ru fn base diff nonce now0 ttl).1
        op2 ru2 fn2 base2 diff2 now = some "bad_op") ∧
    (op2 = op → ru2 ≠ ru →
      App.verify_write_token h
        (App.issue_write_token h op ru fn base diff nonce now0 ttl).1
        op2 ru2 fn2 base2 diff2 now = some "wrong_unlock") ∧
    (op2 = op → ru2 = ru → fn2 ≠ fn →
      App.verify_write_token h
        (App.issue_write_token h op ru fn base diff nonce now0 ttl).1
        op2 ru2 fn2 base2 diff2 now = some "wrong_filename") ∧
    (op2 = op → ru2 = ru → fn2 = fn → h base2 ≠ h base →
      App.verify_write_token h
        (App.issue_write_token h op ru fn base diff nonce now0 ttl).1
        op2 ru2 fn2 base2 diff2 now = some "wrong_base") ∧
    (op2 = op → ru2 = ru → fn2 = fn → h base2 = h base → h diff2 ≠ h diff →
      App.verify_write_token h
        (App.issue_write_token h op ru fn base diff nonce now0 ttl).1
        op2 ru2 fn2 base2 diff2 now = some "wrong_diff") := by
  simp only [App.issue_write_token, App.verify_write_token, ne_eq]
  refine ⟨⟨?_, ?_⟩, ?_, ?_, ?_, ?_, ?_, ?_⟩
  · intro hv
    split_ifs at hv with h1 h2 h3 h4 h5 h6 h7 <;> try exact Option.noConfusion hv
    push_neg at h2 h3 h4 h5 h6 h7
    exact ⟨h2.symm, h3.symm, h4.symm, h5.symm, h6.symm, h7⟩
  · rintro ⟨rfl, rfl, rfl, hb, hd, hle⟩
    simp [hb, hd, Nat.not_lt.mpr hle]
  · rintro rfl rfl rfl hb hd hlt
    simp [hb, hd, hlt]
  · intro hne
    simp [Ne.symm hne]
  · rintro rfl hne
    simp [Ne.symm hne]
  · rintro rfl rfl hne
    simp [Ne.symm hne]
  · rintro rfl rfl rfl hne
    have hb : ¬(h base = h base2) := fun he => hne he.symm
    simp [hb]
  · rintro rfl rfl rfl hb hne
    have hb2 : h base = h base2 := hb.symm
    have hd2 : ¬(h diff = h diff2) := fun he => hne he.symm
    simp [hb2, hd2]

/-- Witness for C1: a concrete mint/verify round trip (hash stands in as
`id`), exercising success, the expiry boundary, and a bound-field failure. -/
theorem c1_token_binding_witness :
    (App.verify_write_token id
      (App.issue_write_token id "edit_apply_unified_diff" "minor_edits" "f.py"
        "base text" "diff text" "n0" 100 120).1
      "edit_apply_unified_diff" "minor_edits" "f.py" "base text" "diff text" 220 = none) ∧
    (App.verify_write_token id
      (App.issue_write_token id "edit_apply_unified_diff" "minor_edits" "f.py"
        "base text" "diff text" "n0" 100 120).1
      "edit_apply_unified_diff" "minor_edits" "f.py" "base text" "diff text" 221 =
      some "expired") ∧
    (App.verify_write_token id
      (App.issue_write_token id "edit_apply_unified_diff" "minor_edits" "f.py"
        "base text" "diff text" "n0" 100 120).1
      "edit_apply_unified_diff" "minor_edits" "g.py" "base text" "diff text" 150 =
      some "wrong_filename") := by
  refine ⟨?_, ?_, ?_⟩
  · exact (c1_token_binding id "edit_apply_unified_diff" "minor_edits" "f.py"
      "base text" "diff text" "n0" 100 120 220 "edit_apply_unified_diff"
      "minor_edits" "f.py" "base text" "diff text").1.mpr
      ⟨rfl, rfl, rfl, rfl, rfl, by decide⟩
  · exact (c1_token_binding id "edit_apply_unified_diff" "minor_edits" "f.py"
      "base text" "diff text" "n0" 100 120 221 "edit_apply_unified_diff"
      "minor_edits" "f.py" "base text" "diff text").2.1
      rfl rfl rfl rfl rfl (by decide)
  · exact (c1_token_binding id "edit_apply_unified_diff" "minor_edits" "f.py"
      "base text" "diff text" "n0" 100 120 150 "edit_apply_unified_diff"
      "minor_edits" "g.py" "base text" "diff text").2.2.2.2.1
      rfl rfl (by decide)

/-- C3 (code bug): on the repository's own test input, `generate` produces a
diff whose content lines are each followed by a blank separator line (the
difflib lines keep their own newlines and are then joined with a newline),
and `apply` rejects that very diff with "Malformed diff line (empty)."
instead of reproducing the new text; the inputs differ, and the diff of
identical inputs is empty. -/
theorem c3_roundtrip_fails_on_test_input :
    EditorEngine.generate_unified_diff c3Old c3New = c3Diff ∧
    EditorEngine.apply_unified_diff c3Old c3Diff =
      ⟨false, c3Diff, none, some "Malformed diff line (empty)."⟩ ∧
    c3Old ≠ c3New ∧
    EditorEngine.generate_unified_diff c3Old c3Old = "" := by
  exact ⟨by decide, by decide, by decide, by decide⟩

/-- C5: per-tier patch-size ceilings are enforced before token minting and
before any file write, in both `/edit` flows: the application flow never
mints a token; an over-ceiling request to the application flow with an
unlocked tier is rejected as `patchTooLarge` with no write, no token and no
audit row; the generation flow never writes a file; a minted token implies
the generated diff was within the ceiling; and an over-ceiling generation
request that passed every earlier gate is rejected as `patchTooLarge` with
no token. -/
theorem c5_patch_ceiling_before_mint_and_write (app : AppState) (text : String)
    (ei ra tests : Option String) (filename base_code diff_text : String)
    (wt : Option TokenPayload) (now : Nat) (old_code_req new_code : String)
    (fs : List String → Option String) (nonce : String) :
    ((Handler.handleEditApply app text ei ra filename base_code diff_text wt now).2.minted =
      none) ∧
    (∀ m : Int,
      (app.model.evaluate ⟨text, ei, none, none, ra⟩).1.allowed = true →
      Handler.max_changes_for_unlock app.patch_cfg
        (app.model.evaluate ⟨text, ei, none, none, ra⟩).1.required_unlock = some m →
      ((Handler.diff_stats diff_text).total_changes : Int) > m →
      Handler.handleEditApply app text ei ra filename base_code diff_text wt now =
        (.patchTooLarge (Handler.diff_stats diff_text).total_changes m,
         ⟨none, false, []⟩)) ∧
    ((Handler.handleEditGenerate app text ei ra tests filename old_code_req new_code
        fs nonce now).2.wrote_file = false) ∧
    (∀ old_code : String,
      Handler.readOldCode app old_code_req filename fs = .ok old_code →
      (Handler.handleEditGenerate app text ei ra tests filename old_code_req new_code
        fs nonce now).2.minted ≠ none →
      exceedsMax (Handler.max_changes_for_unlock app.patch_cfg
          (app.model.evaluate ⟨text, ei, some old_code, tests, ra⟩).1.required_unlock)
        (Handler.diff_stats
          (EditorEngine.generate_unified_diff old_code new_code)).total_changes = false) ∧
    (∀ (old_code : String) (m : Int),
      Handler.readOldCode app old_code_req filename fs = .ok old_code →
      ¬((new_code.length : Int) > app.patch_cfg.max_new_code_chars) →
      ¬(old_code = "" ∧ new_code = "") →
      (app.model.evaluate ⟨text, ei, some old_code, tests, ra⟩).1.allowed = true →
      ¬(app.patch_cfg.require_code_eval_pass = true ∧
        ¬codeEvalOk (app.model.evaluate ⟨text, ei, some old_code, tests, ra⟩).1 = true) →
      Handler.max_changes_for_unlock app.patch_cfg
        (app.model.evaluate ⟨text, ei, some old_code, tests, ra⟩).1.required_unlock =
        some m →
      ((Handler.diff_stats
        (EditorEngine.generate_unified_diff old_code new_code)).total_changes : Int) > m →
      Handler.handleEditGenerate app text ei ra tests filename old_code_req new_code
          fs nonce now =
        (.patchTooLarge (Handler.diff_stats
            (EditorEngine.generate_unified_diff old_code new_code)).total_changes m,
         ⟨none, false, []⟩)) := by
  refine ⟨?_, ?_, ?_, ?_, ?_⟩
  · unfold Handler.handleEditApply
    dsimp only
    split_ifs <;> try rfl
    all_goals (repeat' split <;> try rfl)
  · intro m hallow hmx hgt
    unfold Handler.handleEditApply
    dsimp only
    rw [if_neg (by simp [hallow]), hmx]
    rw [if_pos (by simp only [exceedsMax]; exact decide_eq_true hgt)]
    simp
  · unfold Handler.handleEditGenerate
    dsimp only
    repeat' split <;> try rfl
  · intro old_code hread hm
    unfold Handler.handleEditGenerate at hm
    rw [hread] at hm
    dsimp only at hm
    by_cases hex : exceedsMax (Handler.max_changes_for_unlock app.patch_cfg
        (app.model.evaluate ⟨text, ei, some old_code, tests, ra⟩).1.required_unlock)
      (Handler.diff_stats
        (EditorEngine.generate_unified_diff old_code new_code)).total_changes = true
    · exfalso
      apply hm
      split_ifs at * <;> simp_all
    · exact Bool.not_eq_true _ ▸ hex
  · intro old_code m hread h1 h2 hallow h3 hmx hgt
    unfold Handler.handleEditGenerate
    rw [hread]
    dsimp only
    rw [if_neg h1, if_neg h2, if_neg (by simp [hallow]), if_neg h3, hmx]
    rw [if_pos (by simp only [exceedsMax]; exact decide_eq_true hgt)]
    simp

/-- C6 counterexample: a capability-locked denial in the patch-application
flow (empty history, hence everything locked) returns the 403 response with
no audit row at all — main.py:354-365 has no `log_patch` call. -/
theorem c6_apply_denial_not_audited :
    (Handler.handleEditApply c6App "refactor" none (some "refactor") "f.py" "a\n" ""
      none 0).1 = .capabilityLocked "refactor" "refactor_lint" ∧
    (Handler.handleEditApply c6App "refactor" none (some "refactor") "f.py" "a\n" ""
      none 0).2.audit = [] := by
  exact ⟨by with_unfolding_all decide, by with_unfolding_all decide⟩


set_option maxHeartbeats 1000000 in
/-- Branch enumeration for the patch-generation flow: every possible
response together with its effect record (audit rows, minted token, file
write). -/
theorem generate_shapes (app : AppState) (text : String)
    (ei ra tests : Option String) (filename old_code_req new_code : String)
    (fs : List String → Option String) (nonce : String) (now : Nat) :
    (∃ e, Handler.handleEditGenerate app text ei ra tests filename old_code_req new_code
        fs nonce now = (.fileReadFailed e, ⟨none, false, []⟩)) ∨
    (Handler.handleEditGenerate app text ei ra tests filename old_code_req new_code
        fs nonce now = (.newCodeTooLarge, ⟨none, false, []⟩)) ∨
    (Handler.handleEditGenerate app text ei ra tests filename old_code_req new_code
        fs nonce now = (.missingOldNew, ⟨none, false, []⟩)) ∨
    (∃ ra2 ru2 entry, Handler.handleEditGenerate app text ei ra tests filename
        old_code_req new_code fs nonce now = (.capabilityLocked ra2 ru2, ⟨none, false, [entry]⟩) ∧
      entry.allowed = false) ∨
    (∃ entry, Handler.handleEditGenerate app text ei ra tests filename old_code_req
        new_code fs nonce now = (.codeEvalBlocked, ⟨none, false, [entry]⟩) ∧
      entry.allowed = true) ∨
    (∃ t m, Handler.handleEditGenerate app text ei ra tests filename old_code_req
        new_code fs nonce now = (.patchTooLarge t m, ⟨none, false, []⟩)) ∨
    (∃ d tok entry, Handler.handleEditGenerate app text ei ra tests filename
        old_code_req new_code fs nonce now = (.generateOk d tok, ⟨Option.map (·.1) tok, false, [entry]⟩) ∧
      entry.allowed = true) := by
  unfold Handler.handleEditGenerate
  dsimp only
  repeat' split
  all_goals first
    | exact Or.inl ⟨_, rfl⟩
    | exact Or.inr (Or.inl rfl)
    | exact Or.inr (Or.inr (Or.inl rfl))
    | exact Or.inr (Or.inr (Or.inr (Or.inl ⟨_, _, _, rfl, rfl⟩)))
    | exact Or.inr (Or.inr (Or.inr (Or.inr (Or.inl ⟨_, rfl, rfl⟩))))
    | exact Or.inr (Or.inr (Or.inr (Or.inr (Or.inr (Or.inl ⟨_, _, rfl⟩)))))
    | exact Or.inr (Or.inr (Or.inr (Or.inr (Or.inr (Or.inr ⟨_, _, _, rfl, rfl⟩)))))

set_option maxHeartbeats 1000000 in
/-- Branch enumeration for the patch-application flow. -/
theorem apply_shapes (app : AppState) (text : String) (ei ra : Option String)
    (filename base_code diff_text : String) (wt : Option TokenPayload) (now : Nat) :
    (∃ ra2 ru2, Handler.handleEditApply app text ei ra filename base_code diff_text wt
        now = (.capabilityLocked ra2 ru2, ⟨none, false, []⟩)) ∨
    (∃ t m, Handler.handleEditApply app text ei ra filename base_code diff_text wt
        now = (.patchTooLarge t m, ⟨none, false, []⟩)) ∨
    (∃ w, Handler.handleEditApply app text ei ra filename base_code diff_text wt
        now = (.writeTokenRequired w, ⟨none, false, []⟩)) ∨
    (∃ e2 entry, Handler.handleEditApply app text ei ra filename base_code diff_text wt
        now = (.patchApplyFailed e2, ⟨none, false, [entry]⟩) ∧ entry.allowed = true) ∨
    (∃ e2 entry, Handler.handleEditApply app text ei ra filename base_code diff_text wt
        now = (.fileWriteFailed e2, ⟨none, false, [entry]⟩) ∧ entry.allowed = true ∧
      App.resolve_workspace_path app.patch_cfg.workspace_root filename = .error e2) ∨
    (∃ nc entry p, Handler.handleEditApply app text ei ra filename base_code diff_text wt
        now = (.applyOk nc true, ⟨none, true, [entry]⟩) ∧ entry.allowed = true ∧
      App.resolve_workspace_path app.patch_cfg.workspace_root filename = .ok p) ∨
    (∃ nc entry, Handler.handleEditApply app text ei ra filename base_code diff_text wt
        now = (.applyOk nc false, ⟨none, false, [entry]⟩) ∧ entry.allowed = true ∧
      app.patch_cfg.write_to_file = false) := by
  unfold Handler.handleEditApply
  dsimp only
  repeat' split
  all_goals first
    | exact Or.inl ⟨_, _, rfl⟩
    | exact Or.inr (Or.inl ⟨_, _, rfl⟩)
    | exact Or.inr (Or.inr (Or.inl ⟨_, rfl⟩))
    | exact Or.inr (Or.inr (Or.inr (Or.inl ⟨_, _, rfl, rfl⟩)))
    | (next heq => exact Or.inr (Or.inr (Or.inr (Or.inr (Or.inl ⟨_, _, rfl, rfl, heq⟩)))))
    | (next heq => exact Or.inr (Or.inr (Or.inr (Or.inr (Or.inr (Or.inl ⟨_, _, _, rfl, rfl, heq⟩))))))
    | (next hw => exact Or.inr (Or.inr (Or.inr (Or.inr (Or.inr (Or.inr ⟨_, _, rfl, rfl, by simp_all⟩))))))

set_option maxHeartbeats 1000000 in
/-- C6 (amended): in the patch-generation flow every capability-locked
denial writes exactly one audit row with `allowed = false`, and code-eval
blocks and successful generations write one row each; in the
patch-application flow the diff-application outcome (success or failure) is
audited, but capability-locked denials, patch-too-large rejections and
token failures are not audited there, and patch-too-large rejections are
not audited in the generation flow either. -/
theorem c6_audit_coverage (app : AppState) (text : String)
    (ei ra tests : Option String) (filename base_code diff_text : String)
    (wt : Option TokenPayload) (now : Nat) (old_code_req new_code : String)
    (fs : List String → Option String) (nonce : String) :
    (∀ ra2 ru2,
      (Handler.handleEditGenerate app text ei ra tests filename old_code_req new_code
        fs nonce now).1 = .capabilityLocked ra2 ru2 →
      ∃ entry, (Handler.handleEditGenerate app text ei ra tests filename old_code_req
        new_code fs nonce now).2.audit = [entry] ∧ entry.allowed = false) ∧
    ((Handler.handleEditGenerate app text ei ra tests filename old_code_req new_code
        fs nonce now).1 = .codeEvalBlocked →
      ∃ entry, (Handler.handleEditGenerate app text ei ra tests filename old_code_req
        new_code fs nonce now).2.audit = [entry] ∧ entry.allowed = true) ∧
    (∀ d tok,
      (Handler.handleEditGenerate app text ei ra tests filename old_code_req new_code
        fs nonce now).1 = .generateOk d tok →
      ∃ entry, (Handler.handleEditGenerate app text ei ra tests filename old_code_req
        new_code fs nonce now).2.audit = [entry] ∧ entry.allowed = true) ∧
    (∀ t m,
      (Handler.handleEditGenerate app text ei ra tests filename old_code_req new_code
        fs nonce now).1 = .patchTooLarge t m →
      (Handler.handleEditGenerate app text ei ra tests filename old_code_req new_code
        fs nonce now).2.audit = []) ∧
    (∀ e2,
      (Handler.handleEditApply app text ei ra filename base_code diff_text wt now).1 =
        .patchApplyFailed e2 →
      ∃ entry, (Handler.handleEditApply app text ei ra filename base_code diff_text
        wt now).2.audit = [entry] ∧ entry.allowed = true) ∧
    (∀ nc wf,
      (Handler.handleEditApply app text ei ra filename base_code diff_text wt now).1 =
        .applyOk nc wf →
      ∃ entry, (Handler.handleEditApply app text ei ra filename base_code diff_text
        wt now).2.audit = [entry] ∧ entry.allowed = true) ∧
    (∀ ra2 ru2,
      (Handler.handleEditApply app text ei ra filename base_code diff_text wt now).1 =
        .capabilityLocked ra2 ru2 →
      (Handler.handleEditApply app text ei ra filename base_code diff_text
        wt now).2.audit = []) ∧
    (∀ t m,
      (Handler.handleEditApply app text ei ra filename base_code diff_text wt now).1 =
        .patchTooLarge t m →
      (Handler.handleEditApply app text ei ra filename base_code diff_text
        wt now).2.audit = []) ∧
    (∀ w,
      (Handler.handleEditApply app text ei ra filename base_code diff_text wt now).1 =
        .writeTokenRequired w →
      (Handler.handleEditApply app text ei ra filename base_code diff_text
        wt now).2.audit = []) := by
  have G := generate_shapes app text ei ra tests filename old_code_req new_code fs nonce now
  have A := apply_shapes app text ei ra filename base_code diff_text wt now
  refine ⟨?_, ?_, ?_, ?_, ?_, ?_, ?_, ?_, ?_⟩
  · intro ra2 ru2 hres
    rcases G with ⟨e, hE⟩ | hE | hE | ⟨ra3, ru3, entry, hE, hB⟩ | ⟨entry, hE, hB⟩ |
      ⟨t, m, hE⟩ | ⟨d, tok, entry, hE, hB⟩ <;> rw [hE] at hres ⊢ <;> simp_all
  · intro hres
    rcases G with ⟨e, hE⟩ | hE | hE | ⟨ra3, ru3, entry, hE, hB⟩ | ⟨entry, hE, hB⟩ |
      ⟨t, m, hE⟩ | ⟨d, tok, entry, hE, hB⟩ <;> rw [hE] at hres ⊢ <;> simp_all
  · intro d tok hres
    rcases G with ⟨e, hE⟩ | hE | hE | ⟨ra3, ru3, entry, hE, hB⟩ | ⟨entry, hE, hB⟩ |
      ⟨t, m, hE⟩ | ⟨d2, tok2, entry, hE, hB⟩ <;> rw [hE] at hres ⊢ <;> simp_all
  · intro t m hres
    rcases G with ⟨e, hE⟩ | hE | hE | ⟨ra3, ru3, entry, hE, hB⟩ | ⟨entry, hE, hB⟩ |
      ⟨t2, m2, hE⟩ | ⟨d, tok, entry, hE, hB⟩ <;> rw [hE] at hres ⊢ <;> simp_all
  · intro e2 hres
    rcases A with ⟨ra3, ru3, hE⟩ | ⟨t, m, hE⟩ | ⟨w, hE⟩ | ⟨e3, entry, hE, hB⟩ |
      ⟨e3, entry, hE, hB, hC⟩ | ⟨nc, entry, p, hE, hB, hC⟩ | ⟨nc, entry, hE, hB, hC⟩ <;>
      rw [hE] at hres ⊢ <;> simp_all
  · intro nc wf hres
    rcases A with ⟨ra3, ru3, hE⟩ | ⟨t, m, hE⟩ | ⟨w, hE⟩ | ⟨e3, entry, hE, hB⟩ |
      ⟨e3, entry, hE, hB, hC⟩ | ⟨nc2, entry, p, hE, hB, hC⟩ | ⟨nc2, entry, hE, hB, hC⟩ <;>
      rw [hE] at hres ⊢ <;> simp_all
  · intro ra2 ru2 hres
    rcases A with ⟨ra3, ru3, hE⟩ | ⟨t, m, hE⟩ | ⟨w, hE⟩ | ⟨e3, entry, hE, hB⟩ |
      ⟨e3, entry, hE, hB, hC⟩ | ⟨nc, entry, p, hE, hB, hC⟩ | ⟨nc, entry, hE, hB, hC⟩ <;>
      rw [hE] at hres ⊢ <;> simp_all
  · intro t m hres
    rcases A with ⟨ra3, ru3, hE⟩ | ⟨t2, m2, hE⟩ | ⟨w, hE⟩ | ⟨e3, entry, hE, hB⟩ |
      ⟨e3, entry, hE, hB, hC⟩ | ⟨nc, entry, p, hE, hB, hC⟩ | ⟨nc, entry, hE, hB, hC⟩ <;>
      rw [hE] at hres ⊢ <;> simp_all
  · intro w hres
    rcases A with ⟨ra3, ru3, hE⟩ | ⟨t, m, hE⟩ | ⟨w2, hE⟩ | ⟨e3, entry, hE, hB⟩ |
      ⟨e3, entry, hE, hB, hC⟩ | ⟨nc, entry, p, hE, hB, hC⟩ | ⟨nc, entry, hE, hB, hC⟩ <;>
      rw [hE] at hres ⊢ <;> simp_all

/-- C8: `resolve_workspace_path` rejects absolute paths, and any path it
returns is a descendant of the workspace root (in the `relative_to` sense,
which includes the root itself); in the patch-application flow a file write
only ever happens with a validated path, and when the configured write step
meets a filename that fails validation the request ends in an error
response (never `applyOk`) with no file written. -/
theorem c8_workspace_path_validation (root : List String) (fn : String) (e : String)
    (app : AppState) (text : String) (ei ra : Option String)
    (base_code diff_text : String) (wt : Option TokenPayload) (now : Nat) :
    (pyIsAbsolute fn = true →
      App.resolve_workspace_path root fn = .error "absolute paths are not allowed") ∧
    (∀ p, App.resolve_workspace_path root fn = .ok p → root <+: p) ∧
    ((Handler.handleEditApply app text ei ra fn base_code diff_text wt now).2.wrote_file =
        true →
      ∃ p, App.resolve_workspace_path app.patch_cfg.workspace_root fn = .ok p ∧
        app.patch_cfg.workspace_root <+: p) ∧
    (app.patch_cfg.write_to_file = true →
      App.resolve_workspace_path app.patch_cfg.workspace_root fn = .error e →
      (Handler.handleEditApply app text ei ra fn base_code diff_text wt now).2.wrote_file =
        false ∧
      ∀ nc wf,
        (Handler.handleEditApply app text ei ra fn base_code diff_text wt now).1 ≠
          .applyOk nc wf) := by
  have A := apply_shapes app text ei ra fn base_code diff_text wt now
  refine ⟨?_, ?_, ?_, ?_⟩
  · intro h
    simp [App.resolve_workspace_path, h]
  · intro p hp
    exact resolve_ok_prefix root fn p hp
  · intro hw
    rcases A with ⟨ra3, ru3, hE⟩ | ⟨t, m, hE⟩ | ⟨w, hE⟩ | ⟨e3, entry, hE, hB⟩ |
      ⟨e3, entry, hE, hB, hC⟩ | ⟨nc, entry, p, hE, hB, hC⟩ | ⟨nc, entry, hE, hB, hC⟩ <;>
      rw [hE] at hw <;> simp_all
    exact resolve_ok_prefix _ _ _ hC
  · intro hwcfg hres
    rcases A with ⟨ra3, ru3, hE⟩ | ⟨t, m, hE⟩ | ⟨w, hE⟩ | ⟨e3, entry, hE, hB⟩ |
      ⟨e3, entry, hE, hB, hC⟩ | ⟨nc, entry, p, hE, hB, hC⟩ | ⟨nc, entry, hE, hB, hC⟩ <;>
      rw [hE] <;> simp_all

/-- Witness for C6 (amended): under `c6App` a locked patch-generation
request is denied and exactly one audit row with `allowed = false` is
written. -/
theorem c6_audit_coverage_witness :
    ∃ entry,
      (Handler.handleEditGenerate c6App "refactor" none (some "refactor") none "f.py"
        "a\n" "b\n" (fun _ => none) "n0" 0).2.audit = [entry] ∧
      entry.allowed = false := by
  exact (c6_audit_coverage c6App "refactor" none (some "refactor") none "f.py" "a\n" ""
      none 0 "a\n" "b\n" (fun _ => none) "n0").1 "refactor" "refactor_lint"
    (by with_unfolding_all decide)

theorem pyStartsWith_append (p r : String) : pyStartsWith (p ++ r) p = true := by
  have he : (p ++ r).toList = p.toList ++ r.toList := by simp [String.toList]
  simp only [pyStartsWith, List.isPrefixOf_iff_prefix, he]
  exact List.prefix_append _ _

theorem errSpecific_invalidHeader (a : String) :
    errSpecific ("Invalid diff hunk header at line: " ++ a) = true := by
  simp [errSpecific, pyStartsWith_append]

theorem errSpecific_ctx (a b : String) :
    errSpecific ("Context mismatch. Expected " ++ a ++ ", got " ++ b ++ ".") = true := by
  have he : "Context mismatch. Expected " ++ a ++ ", got " ++ b ++ "." =
      "Context mismatch. Expected " ++ (a ++ ", got " ++ b ++ ".") := by
    simp [String.append_assoc]
  rw [he]
  simp [errSpecific, pyStartsWith_append]

theorem errSpecific_removal (a b : String) :
    errSpecific ("Removal mismatch. Expected " ++ a ++ ", got " ++ b ++ ".") = true := by
  have he : "Removal mismatch. Expected " ++ a ++ ", got " ++ b ++ "." =
      "Removal mismatch. Expected " ++ (a ++ ", got " ++ b ++ ".") := by
    simp [String.append_assoc]
  rw [he]
  simp [errSpecific, pyStartsWith_append]

theorem errSpecific_unknown (a b : String) :
    errSpecific ("Unknown diff prefix " ++ a ++ " in line " ++ b ++ ".") = true := by
  have he : "Unknown diff prefix " ++ a ++ " in line " ++ b ++ "." =
      "Unknown diff prefix " ++ (a ++ " in line " ++ b ++ ".") := by
    simp [String.append_assoc]
  rw [he]
  simp [errSpecific, pyStartsWith_append]

theorem errSpecific_oldCount (oc c : Nat) :
    errSpecific (hunkCountOldMsg oc c) = true := by
  have he : hunkCountOldMsg oc c =
      "Hunk old line count mismatch: header " ++
        (toString oc ++ ", consumed " ++ toString c ++ ".") := by
    simp [hunkCountOldMsg, String.append_assoc]
  rw [he]
  simp [errSpecific, pyStartsWith_append]

theorem errSpecific_newCount (nc p : Nat) :
    errSpecific (hunkCountNewMsg nc p) = true := by
  have he : hunkCountNewMsg nc p =
      "Hunk new line count mismatch: header " ++
        (toString nc ++ ", produced " ++ toString p ++ ".") := by
    simp [hunkCountNewMsg, String.append_assoc]
  rw [he]
  simp [errSpecific, pyStartsWith_append]

theorem processHunkHead_error_inv (oldLines : List String) (pos : Nat)
    (out : List String) (l : String) (e : String)
    (h : processHunkHead oldLines pos out l = .error e) : errSpecific e = true := by
  unfold processHunkHead at h
  split at h
  · injection h with h
    subst h
    exact errSpecific_invalidHeader _
  · split_ifs at h with hle
    injection h with h
    subst h
    decide

theorem processHunkHead_ok_inv (oldLines : List String) (pos : Nat)
    (out : List String) (l : String) (pos2 : Nat) (out2 : List String) (oc nc : Nat)
    (h : processHunkHead oldLines pos out l = .ok (pos2, out2, oc, nc)) :
    ∃ os ns, parseHunkHeader l = some (os, oc, ns, nc) ∧ pos < os ∧
      pos2 = os - 1 ∧ out2 = out ++ (oldLines.drop pos).take (os - 1 - pos) := by
  unfold processHunkHead at h
  split at h
  · exact Except.noConfusion h
  next os oc2 ns nc2 heq =>
    split_ifs at h with hle
    injection h with h
    simp only [Prod.mk.injEq] at h
    obtain ⟨h1, h2, h3, h4⟩ := h
    subst h1
    subst h2
    subst h3
    subst h4
    exact ⟨os, ns, heq, Nat.lt_of_not_le hle, rfl, rfl⟩


set_option maxHeartbeats 1000000 in
theorem applyLoop_error_specific (oldLines : List String) (lines : List String) :
    ∀ (body : Option (Nat × Nat × Nat × Nat)) (pos : Nat) (out : List String)
      (e : String),
      applyLoop oldLines lines body pos out = .error e → errSpecific e = true := by
  induction lines with
  | nil =>
    intro body pos out e h
    match body with
    | none =>
      simp only [applyLoop] at h
      exact Except.noConfusion h
    | some (c, p, oc, nc) =>
      simp only [applyLoop] at h
      split_ifs at h with h1 h2
      · injection h with h
        subst h
        exact errSpecific_oldCount oc c
      · injection h with h
        subst h
        exact errSpecific_newCount nc p
  | cons l rest ih =>
    intro body pos out e h
    match body with
    | none =>
      simp only [applyLoop] at h
      split at h
      next e2 heq =>
        injection h with h
        subst h
        exact processHunkHead_error_inv _ _ _ _ _ heq
      next pos2 out2 oc nc heq =>
        exact ih _ _ _ _ h
    | some (c, p, oc, nc) =>
      simp only [applyLoop] at h
      by_cases hAt : pyStartsWith l "@@ " = true
      · rw [if_pos hAt] at h
        split_ifs at h with h1 h2
        · injection h with h
          subst h
          exact errSpecific_oldCount oc c
        · injection h with h
          subst h
          exact errSpecific_newCount nc p
        · split at h
          next e2 heq =>
            injection h with h
            subst h
            exact processHunkHead_error_inv _ _ _ _ _ heq
          next pos2 out2 oc2 nc2 heq =>
            exact ih _ _ _ _ h
      · rw [if_neg hAt] at h
        by_cases hBs : pyStartsWith l "\\ No newline at end of file" = true
        · rw [if_pos hBs] at h
          exact ih _ _ _ _ h
        · rw [if_neg hBs] at h
          split at h
          next heqL =>
            injection h with h
            subst h
            decide
          next px cs heqL =>
            split_ifs at h with hsp hmis hdl hmis2 hpl
            · injection h with h
              subst h
              exact errSpecific_ctx _ _
            · exact ih _ _ _ _ h
            · injection h with h
              subst h
              exact errSpecific_removal _ _
            · exact ih _ _ _ _ h
            · exact ih _ _ _ _ h
            · injection h with h
              subst h
              exact errSpecific_unknown _ _

set_option maxHeartbeats 1000000 in
theorem applyLoop_ok_sound (oldLines : List String) (lines : List String) :
    ∀ (body : Option (Nat × Nat × Nat × Nat)) (pos : Nat) (out : List String)
      (res : List String),
      applyLoop oldLines lines body pos out = .ok res →
      ∃ produced, res = out ++ produced ∧ ApplyRel oldLines lines body pos produced := by
  induction lines with
  | nil =>
    intro body pos out res h
    match body with
    | none =>
      simp only [applyLoop] at h
      injection h with h
      subst h
      exact ⟨oldLines.drop pos, rfl, ApplyRel.finishTop pos⟩
    | some (c, p, oc, nc) =>
      simp only [applyLoop] at h
      split_ifs at h with h1 h2
      injection h with h
      subst h
      rw [not_ne_iff.mp h1, not_ne_iff.mp h2]
      exact ⟨oldLines.drop pos, rfl, ApplyRel.finishBody pos c p⟩
  | cons l rest ih =>
    intro body pos out res h
    match body with
    | none =>
      simp only [applyLoop] at h
      split at h
      next e2 heq => exact Except.noConfusion h
      next pos2 out2 oc nc heq =>
        obtain ⟨produced, hres, hrel⟩ := ih _ _ _ _ h
        obtain ⟨os, ns, hparse, hlt, hpos2, hout2⟩ :=
          processHunkHead_ok_inv _ _ _ _ _ _ _ _ heq
        subst hpos2
        subst hout2
        refine ⟨(oldLines.drop pos).take (os - 1 - pos) ++ produced, ?_, ?_⟩
        · rw [hres, List.append_assoc]
        · exact ApplyRel.header l rest pos os oc ns nc produced hparse hlt hrel
    | some (c, p, oc, nc) =>
      simp only [applyLoop] at h
      by_cases hAt : pyStartsWith l "@@ " = true
      · rw [if_pos hAt] at h
        split_ifs at h with h1 h2
        split at h
        next e2 heq => exact Except.noConfusion h
        next pos2 out2 oc2 nc2 heq =>
          obtain ⟨produced, hres, hrel⟩ := ih _ _ _ _ h
          obtain ⟨os, ns, hparse, hlt, hpos2, hout2⟩ :=
            processHunkHead_ok_inv _ _ _ _ _ _ _ _ heq
          subst hpos2
          subst hout2
          rw [not_ne_iff.mp h1, not_ne_iff.mp h2]
          refine ⟨(oldLines.drop pos).take (os - 1 - pos) ++ produced, ?_, ?_⟩
          · rw [hres, List.append_assoc]
          · exact ApplyRel.nextHunk l rest pos c p os oc2 ns nc2 produced hAt hparse
              hlt hrel
      · rw [if_neg hAt] at h
        have hAt2 : pyStartsWith l "@@ " = false := by simpa using hAt
        by_cases hBs : pyStartsWith l "\\ No newline at end of file" = true
        · rw [if_pos hBs] at h
          obtain ⟨produced, hres, hrel⟩ := ih _ _ _ _ h
          exact ⟨produced, hres,
            ApplyRel.skipMarker l rest pos (c, p, oc, nc) produced hAt2 hBs hrel⟩
        · rw [if_neg hBs] at h
          have hBs2 : pyStartsWith l "\\ No newline at end of file" = false := by
            simpa using hBs
          split at h
          next heqL => exact Except.noConfusion h
          next px cs heqL =>
            split_ifs at h with hsp hmis hdl hmis2 hpl
            · -- context line
              subst hsp
              push_neg at hmis
              obtain ⟨produced, hres, hrel⟩ := ih _ _ _ _ h
              refine ⟨(String.mk cs ++ "\n") :: produced, ?_, ?_⟩
              · rw [hres]
                simp
              · exact ApplyRel.ctxLine l rest cs pos c p oc nc produced hAt2 hBs2
                  heqL hmis.1 hmis.2 hrel
            · -- removal line
              subst hdl
              push_neg at hmis2
              obtain ⟨produced, hres, hrel⟩ := ih _ _ _ _ h
              exact ⟨produced, hres,
                ApplyRel.delLine l rest cs pos c p oc nc produced hAt2 hBs2 heqL
                  hmis2.1 hmis2.2 hrel⟩
            · -- addition line
              subst hpl
              obtain ⟨produced, hres, hrel⟩ := ih _ _ _ _ h
              refine ⟨(String.mk cs ++ "\n") :: produced, ?_, ?_⟩
              · rw [hres]
                simp
              · exact ApplyRel.addLine l rest cs pos c p oc nc produced hAt2 hBs2
                  heqL hrel

/-- C4: `apply_unified_diff` never partially applies: it either returns
`ok = true` with the complete new text, `error` absent, and a clean strict
application (`StrictPatchApplies`: every hunk ordered, every context and
removal line equal to the old-text line at the cursor, and the walked counts
equal to each header's declared counts), or it returns `ok = false` with
`new_text` absent and one of the specific per-check error messages. -/
theorem c4_apply_strict_or_specific_error (old_text diff_text : String) :
    (∃ t, EditorEngine.apply_unified_diff old_text diff_text =
        ⟨true, diff_text, some t, none⟩ ∧ StrictPatchApplies old_text diff_text t) ∨
    (∃ e, EditorEngine.apply_unified_diff old_text diff_text =
        ⟨false, diff_text, none, some e⟩ ∧ errSpecific e = true) := by
  unfold EditorEngine.apply_unified_diff
  by_cases hs : pyStrip diff_text = ""
  · rw [if_pos hs]
    exact Or.inl ⟨old_text, rfl, Or.inl ⟨hs, rfl⟩⟩
  · rw [if_neg hs]
    dsimp only
    cases happ : applyLoop (pySplitlines true old_text)
        (stripHeaderLines (pySplitlines false diff_text)) none 0 [] with
    | ok outLines =>
      obtain ⟨produced, hres, hrel⟩ := applyLoop_ok_sound _ _ _ _ _ _ happ
      have houtp : outLines = produced := by simpa using hres
      left
      refine ⟨String.join outLines, by simp [happ], Or.inr ⟨hs, produced, hrel, ?_⟩⟩
      rw [houtp]
    | error e =>
      right
      exact ⟨e, by simp [happ], applyLoop_error_specific _ _ _ _ _ _ happ⟩

/-- Witness for C5: under `c5App` (ceiling 1 for minor_edits, tier unlocked)
a two-change diff submitted to the application flow is rejected as
`patchTooLarge` with no token, no write, and no audit row. -/
theorem c5_patch_ceiling_witness :
    Handler.handleEditApply c5App "edit" none (some "edit") "f.py" "x\n" c5Diff
      none 0 = (.patchTooLarge 2 1, ⟨none, false, []⟩) := by
  have h := (c5_patch_ceiling_before_mint_and_write c5App "edit" none (some "edit")
      none "f.py" "x\n" c5Diff none 0 "" "" (fun _ => none) "n").2.1 1
      (by with_unfolding_all decide) (by with_unfolding_all decide)
      (by with_unfolding_all decide)
  exact h.trans (by with_unfolding_all decide)

/-- Witness for C8: an absolute filename is rejected, and a `..` filename
that escapes the workspace leads to no file write in the application flow. -/
theorem c8_workspace_path_validation_witness :
    App.resolve_workspace_path ["home", "ws"] "/etc/passwd" =
      .error "absolute paths are not allowed" ∧
    (Handler.handleEditApply c6App "refactor" none (some "refactor") ".." "x" ""
      none 0).2.wrote_file = false := by
  constructor
  · exact (c8_workspace_path_validation ["home", "ws"] "/etc/passwd" "e" c6App "r"
      none none "b" "d" none 0).1 (by decide)
  · exact ((c8_workspace_path_validation ["home", "ws"] ".." "path escapes workspace"
      c6App "refactor" none (some "refactor") "x" "" none 0).2.2.2 (by decide)
      (by rfl)).1

end WorldEngine
